import Mathlib

/-!
Verification of the application-manager core (descriptor deployment
orchestration) against its natural-language specification.

The development shallowly embeds the relevant Go sources:
  internal/pkg/server/application/manager.go  (orchestrator, connection checker)
  internal/pkg/entities/parameters.go         (parametrization engine)

External collaborators (descriptor/instance store, network-connection store,
hand-off queue) are modelled as records of call results; side-effecting calls
are additionally logged into an explicit call trace so that ordering and
compensation behaviour can be stated.  Protobuf messages are modelled as
structures carrying exactly the fields the sources read or write; Go zero
values are the empty string, `0`, `false`, `[]` and `none`.
-/

/-- Error classes of the `derrors` library as used by the sources. -/
inductive ErrKind
  | failedPrecondition
  | notFound
  | invalidArgument
  | permissionDenied
  | generic
deriving DecidableEq

/-- A `derrors.Error`: class, message and the values attached by `WithParams`. -/
structure DError where
  kind : ErrKind
  message : String
  params : List String
deriving DecidableEq

/-- Errors surfaced by gRPC clients; their content is opaque to this code. -/
def GoErr := String
deriving instance DecidableEq for GoErr

/-- A manager call either surfaces a raw client error or a `derrors` value
(possibly converted with `conversions.ToGRPCError`, which preserves the
payload). -/
inductive ManagerError
  | grpc (e : GoErr)
  | derror (e : DError)
deriving DecidableEq

/-- grpc_common_go.Success. -/
inductive Success
  | mk
deriving DecidableEq

-- Constants of manager.go.

def RequiredParamNotFilled : String := "Required parameter not filled"

def RequiredOutboundNotFilled : String := "Required outbound not filled"

def OutboundNotDefined : String := "Deploy outbound connection not defined"

-- Protobuf data model (fields witnessed by the sources).

/-- grpc_application_go.AppParameter. -/
inductive ParamDataType
  | boolean
  | integer
  | float
  | enum
  | string
  | password
deriving DecidableEq

structure AppParameter where
  name : String
  type : ParamDataType
  path : String
  required : Bool
  enumValues : List String
deriving DecidableEq

/-- grpc_application_go.InstanceParameter. -/
structure InstanceParameter where
  parameterName : String
  value : String
deriving DecidableEq

/-- grpc_application_go.InboundNetworkInterface. -/
structure InboundNetworkInterface where
  name : String
deriving DecidableEq

/-- grpc_application_go.OutboundNetworkInterface. -/
structure OutboundNetworkInterface where
  name : String
  required : Bool
deriving DecidableEq

/-- grpc_application_go.SecurityRule (fields witnessed across manager.go,
parameters.go and the test fixtures). -/
structure SecurityRule where
  organizationId : String
  appDescriptorId : String
  ruleId : String
  name : String
  targetServiceGroupName : String
  targetServiceName : String
  targetPort : Int
  access : Nat
  authServiceGroupName : String
  authServices : List String
  deviceGroupIds : List String
  deviceGroupNames : List String
  outboundNetInterface : String
deriving DecidableEq

/-- grpc_application_go.DeploySpecs (fields read by copyDeploySpec). -/
structure DeploySpecs where
  cpu : Int
  memory : Int
  replicas : Int
deriving DecidableEq

/-- grpc_application_go.ServiceGroupDeploymentSpecs (test fixtures). -/
structure ServiceGroupDeploymentSpecs where
  replicas : Int
  multiClusterReplica : Bool
deriving DecidableEq

/-- grpc_application_go.Storage. -/
structure Storage where
  size : Int
  mountPath : String
  type : Nat
deriving DecidableEq

/-- grpc_application_go.Endpoint. -/
structure Endpoint where
  type : Nat
  path : String
deriving DecidableEq

/-- grpc_application_go.Port. -/
structure Port where
  name : String
  internalPort : Int
  exposedPort : Int
  endpoints : List Endpoint
deriving DecidableEq

/-- grpc_application_go.ConfigFile. -/
structure ConfigFile where
  organizationId : String
  appDescriptorId : String
  configFileId : String
  name : String
  content : String
  mountPath : String
deriving DecidableEq

/-- grpc_application_go.ImageCredentials. -/
structure ImageCredentials where
  username : String
  password : String
  email : String
  dockerRepository : String
deriving DecidableEq

/-- grpc_application_go.Service (fields read by copyService). -/
structure Service where
  organizationId : String
  appDescriptorId : String
  serviceGroupId : String
  serviceId : String
  name : String
  type : Nat
  image : String
  credentials : Option ImageCredentials
  specs : Option DeploySpecs
  storage : List Storage
  exposedPorts : List Port
  environmentVariables : List (String × String)
  configs : List ConfigFile
  labels : List (String × String)
  deployAfter : List String
  runArguments : List String
deriving DecidableEq

/-- grpc_application_go.ServiceGroup. -/
structure ServiceGroup where
  organizationId : String
  appDescriptorId : String
  serviceGroupId : String
  name : String
  services : List Service
  policy : Nat
  specs : Option ServiceGroupDeploymentSpecs
  labels : List (String × String)
deriving DecidableEq

/-- grpc_application_go.AppDescriptor (fields read by the sources; Go string
maps are modelled as association lists). -/
structure AppDescriptor where
  organizationId : String
  appDescriptorId : String
  name : String
  configurationOptions : List (String × String)
  environmentVariables : List (String × String)
  labels : List (String × String)
  rules : List SecurityRule
  groups : List ServiceGroup
  parameters : List AppParameter
  outboundNetInterfaces : List OutboundNetworkInterface
deriving DecidableEq

/-- grpc_application_go.ParametrizedDescriptor (fields built by
newParametrizedDescriptorFromDescriptor plus AppInstanceId, filled later by
Deploy). -/
structure ParametrizedDescriptor where
  organizationId : String
  appDescriptorId : String
  appInstanceId : String
  name : String
  configurationOptions : List (String × String)
  environmentVariables : List (String × String)
  labels : List (String × String)
  rules : List SecurityRule
  groups : List ServiceGroup
deriving DecidableEq

/-- grpc_application_go.AppInstance (fields read or written by manager.go). -/
structure AppInstanceRec where
  organizationId : String
  appDescriptorId : String
  appInstanceId : String
  name : String
  labels : List (String × String)
  configurationOptions : List (String × String)
  environmentVariables : List (String × String)
  rules : List SecurityRule
  inboundNetInterfaces : List InboundNetworkInterface
deriving DecidableEq

-- manager.go: checkAllRequiredParametersAreFilled (lines 118-141).

/-- Instance parameters of a deploy request: a nil pointer or a list
(grpc_application_go.InstanceParameterList). -/
def paramsList : Option (List InstanceParameter) → List InstanceParameter
  | none => []
  | some ps => ps

/-- Loop body of checkAllRequiredParametersAreFilled: walk the descriptor
parameters and fail on the first required one with no matching deploy
parameter.  The inner search (`find` flag with break) is `List.any`; a nil
parameter list never matches. -/
def checkRequiredLoop (params : Option (List InstanceParameter)) :
    List AppParameter → Option DError
  | [] => none
  | p :: rest =>
    if p.required = true then
      let find : Bool :=
        match params with
        | none => false
        | some ps => ps.any (fun deployParam => deployParam.parameterName == p.name)
      if !find then
        some ⟨ErrKind.failedPrecondition, RequiredParamNotFilled, []⟩
      else
        checkRequiredLoop params rest
    else
      checkRequiredLoop params rest

/-- manager.go checkAllRequiredParametersAreFilled: checks all the params
defined as required are filled in the deploy request. -/
def checkAllRequiredParametersAreFilled (desc : AppDescriptor)
    (params : Option (List InstanceParameter)) : Option DError :=
  checkRequiredLoop params desc.parameters

-- Concrete fixtures used by witnesses and counterexamples.

def emptyDescriptor : AppDescriptor :=
  ⟨"org", "desc", "d", [], [], [], [], [], [], []⟩

def requiredParam (nm : String) : AppParameter :=
  ⟨nm, ParamDataType.string, "name", true, []⟩

def descriptorAlpha : AppDescriptor :=
  { emptyDescriptor with parameters := [requiredParam "alpha"] }

def descriptorBeta : AppDescriptor :=
  { emptyDescriptor with parameters := [requiredParam "beta"] }

-- manager.go: checkInbounds (lines 154-200) and checkConnections (204-261).

/-- grpc_application_manager_go.ConnectionRequest (fields read by the
manager). -/
structure ConnectionRequest where
  sourceOutboundName : String
  targetInstanceId : String
  targetInboundName : String
deriving DecidableEq

/-- manager.go CheckInboundResponse. -/
structure CheckInboundResponse where
  instanceId : String
  inboundName : String
  result : Bool
deriving DecidableEq

/-- Inner loop of checkInbounds over the requested inbound names: the first
name with no matching inbound interface emits a failure response and breaks;
when all names are found a single success response is emitted.  The returned
list is the sequence of sends on the result channel, in order. -/
def checkInboundsScan (instanceID : String) (targetInstance : AppInstanceRec) :
    List String → List CheckInboundResponse
  | [] => [⟨instanceID, "", true⟩]
  | inboundName :: rest =>
    if targetInstance.inboundNetInterfaces.any (fun inbound => inbound.name == inboundName) then
      checkInboundsScan instanceID targetInstance rest
    else
      [⟨instanceID, inboundName, false⟩]

/-- manager.go checkInbounds: checks whether the target instance defines all
the requested inbound names.  The store lookup GetAppInstance is the
`getAppInstance` argument (`none` for a failed lookup); the result models the
responses sent on the channel. -/
def checkInbounds (getAppInstance : String → String → Option AppInstanceRec)
    (organizationID instanceID : String) (inboundNames : List String) :
    List CheckInboundResponse :=
  match getAppInstance organizationID instanceID with
  | none => [⟨instanceID, "", false⟩]
  | some targetInstance => checkInboundsScan instanceID targetInstance inboundNames

/-- Required-outbound pass of checkConnections (step 1, sequential): the first
required outbound interface appearing in no requested connection fails with
its name as parameter. -/
def checkRequiredOutbounds (connections : List ConnectionRequest) :
    List OutboundNetworkInterface → Option DError
  | [] => none
  | outbound :: rest =>
    if outbound.required = true then
      if connections.any (fun connection => connection.sourceOutboundName == outbound.name) then
        checkRequiredOutbounds connections rest
      else
        some ⟨ErrKind.failedPrecondition, RequiredOutboundNotFilled, [outbound.name]⟩
    else
      checkRequiredOutbounds connections rest

/-- One step of building the per-instance inbound map: append the inbound name
to the entry of the target instance, creating the entry if absent.  The Go map
is modelled as an association list in first-insertion key order. -/
def insertInbound : List (String × List String) → String → String →
    List (String × List String)
  | [], instanceId, inboundName => [(instanceId, [inboundName])]
  | (k, ns) :: rest, instanceId, inboundName =>
    if k == instanceId then
      (k, ns ++ [inboundName]) :: rest
    else
      (k, ns) :: insertInbound rest instanceId inboundName

/-- The loop `for _, conn := range connections` filling the per-instance
map. -/
def groupConnectionsGo (acc : List (String × List String)) :
    List ConnectionRequest → List (String × List String)
  | [] => acc
  | conn :: rest =>
    groupConnectionsGo (insertInbound acc conn.targetInstanceId conn.targetInboundName) rest

def groupConnections (connections : List ConnectionRequest) :
    List (String × List String) :=
  groupConnectionsGo [] connections

/-- Fan-out of one checkInbounds goroutine per distinct target instance; the
channel contents are the concatenation of each goroutine's sends.  The Go map
iteration order is arbitrary; it is modelled as first-insertion order, which
only influences which failing instance is reported first. -/
def runChecks (getAppInstance : String → String → Option AppInstanceRec)
    (organizationID : String) :
    List (String × List String) → List CheckInboundResponse
  | [] => []
  | (instanceId, inboundList) :: rest =>
    checkInbounds getAppInstance organizationID instanceId inboundList ++
      runChecks getAppInstance organizationID rest

/-- Result-collection loop of checkConnections: the first failed response
determines the error; a response with an empty inbound name is interpreted as
a failed instance lookup. -/
def firstFailure : List CheckInboundResponse → Option DError
  | [] => none
  | result :: rest =>
    if result.result = false then
      if result.inboundName ≠ "" then
        some ⟨ErrKind.failedPrecondition, "no inbound interface found",
          [result.instanceId, result.inboundName]⟩
      else
        some ⟨ErrKind.failedPrecondition, "instance not found", [result.instanceId]⟩
    else
      firstFailure rest

/-- manager.go checkConnections: the sequential required-outbound pass
followed by the per-instance inbound fan-out. -/
def checkConnections (getAppInstance : String → String → Option AppInstanceRec)
    (organizationID : String) (connections : List ConnectionRequest)
    (outboundInterfaces : List OutboundNetworkInterface) : Option DError :=
  match checkRequiredOutbounds connections outboundInterfaces with
  | some e => some e
  | none =>
    firstFailure (runChecks getAppInstance organizationID (groupConnections connections))

/-- Specification value (wording of C10): the single response checkInbounds is
expected to send — lookup failure, first missing inbound name, or success. -/
def checkInboundsExpected (getAppInstance : String → String → Option AppInstanceRec)
    (organizationID instanceID : String) (inboundNames : List String) :
    CheckInboundResponse :=
  match getAppInstance organizationID instanceID with
  | none => ⟨instanceID, "", false⟩
  | some targetInstance =>
    match inboundNames.find? (fun n =>
        !(targetInstance.inboundNetInterfaces.any (fun inbound => inbound.name == n))) with
    | some n => ⟨instanceID, n, false⟩
    | none => ⟨instanceID, "", true⟩

/-- Specification predicate (wording of C3): the target instance of the
connection exists and declares the referenced inbound. -/
def targetOk (getAppInstance : String → String → Option AppInstanceRec)
    (organizationID : String) (c : ConnectionRequest) : Prop :=
  ∃ inst, getAppInstance organizationID c.targetInstanceId = some inst ∧
    inst.inboundNetInterfaces.any (fun i => i.name == c.targetInboundName) = true

-- Concrete fixtures for the connection-checker counterexample and witnesses.

def instTI : AppInstanceRec :=
  ⟨"org", "d", "ti", "i", [], [], [], [], []⟩

def instWithInbound : AppInstanceRec :=
  ⟨"org", "d", "tj", "j", [], [], [], [], [⟨"in1"⟩]⟩

def lookupTI : String → String → Option AppInstanceRec :=
  fun _ instanceID =>
    if instanceID == "ti" then some instTI
    else if instanceID == "tj" then some instWithInbound
    else none

def connEmptyInbound : ConnectionRequest := ⟨"out1", "ti", ""⟩

def connGood : ConnectionRequest := ⟨"out1", "tj", "in1"⟩

-- entities/parameters.go: copy functions, parameter validation and
-- CreateParametrizedDescriptor.  The Go copy helpers guard against nil
-- pointers; repeated fields are modelled as value lists, so those guards are
-- vacuous here, while nullable sub-messages keep their Option guard.

/-- parameters.go copySecurityRule: fields absent from the Go literal are left
at their zero value — TargetServiceGroupName and OutboundNetInterface are not
copied. -/
def copySecurityRule (rule : SecurityRule) : SecurityRule :=
  { organizationId := rule.organizationId
    appDescriptorId := rule.appDescriptorId
    ruleId := rule.ruleId
    name := rule.name
    targetServiceGroupName := ""
    targetServiceName := rule.targetServiceName
    targetPort := rule.targetPort
    access := rule.access
    authServiceGroupName := rule.authServiceGroupName
    authServices := rule.authServices
    deviceGroupIds := rule.deviceGroupIds
    deviceGroupNames := rule.deviceGroupNames
    outboundNetInterface := "" }

/-- parameters.go copyStorage. -/
def copyStorage (storage : Storage) : Storage :=
  { size := storage.size
    mountPath := storage.mountPath
    type := storage.type }

/-- parameters.go copyImageCredential (nil in, nil out). -/
def copyImageCredential : Option ImageCredentials → Option ImageCredentials
  | none => none
  | some credentials =>
    some { username := credentials.username
           password := credentials.password
           email := credentials.email
           dockerRepository := credentials.dockerRepository }

/-- parameters.go copyDeploySpec (nil in, nil out). -/
def copyDeploySpec : Option DeploySpecs → Option DeploySpecs
  | none => none
  | some specs =>
    some { cpu := specs.cpu
           memory := specs.memory
           replicas := specs.replicas }

/-- parameters.go copyEndPoint. -/
def copyEndPoint (endpoint : Endpoint) : Endpoint :=
  { type := endpoint.type
    path := endpoint.path }

/-- parameters.go copyExposedPort. -/
def copyExposedPort (port : Port) : Port :=
  { name := port.name
    internalPort := port.internalPort
    exposedPort := port.exposedPort
    endpoints := port.endpoints.map copyEndPoint }

/-- parameters.go copyConfigFile. -/
def copyConfigFile (configFile : ConfigFile) : ConfigFile :=
  { organizationId := configFile.organizationId
    appDescriptorId := configFile.appDescriptorId
    configFileId := configFile.configFileId
    name := configFile.name
    content := configFile.content
    mountPath := configFile.mountPath }

/-- parameters.go copyService. -/
def copyService (service : Service) : Service :=
  { organizationId := service.organizationId
    appDescriptorId := service.appDescriptorId
    serviceGroupId := service.serviceGroupId
    serviceId := service.serviceId
    name := service.name
    type := service.type
    image := service.image
    credentials := copyImageCredential service.credentials
    specs := copyDeploySpec service.specs
    storage := service.storage.map copyStorage
    exposedPorts := service.exposedPorts.map copyExposedPort
    environmentVariables := service.environmentVariables
    configs := service.configs.map copyConfigFile
    labels := service.labels
    deployAfter := service.deployAfter
    runArguments := service.runArguments }

/-- parameters.go copyServiceGroup: the Specs field is commented out in the
source and therefore not copied — the copy carries nil specs. -/
def copyServiceGroup (group : ServiceGroup) : ServiceGroup :=
  { organizationId := group.organizationId
    appDescriptorId := group.appDescriptorId
    serviceGroupId := group.serviceGroupId
    name := group.name
    services := group.services.map copyService
    policy := group.policy
    specs := none
    labels := group.labels }

/-- parameters.go newParametrizedDescriptorFromDescriptor: the parametrized
copy of a descriptor (AppInstanceId is the zero value until Deploy fills
it). -/
def newParametrizedDescriptorFromDescriptor (descriptor : AppDescriptor) :
    ParametrizedDescriptor :=
  { organizationId := descriptor.organizationId
    appDescriptorId := descriptor.appDescriptorId
    appInstanceId := ""
    name := descriptor.name
    configurationOptions := descriptor.configurationOptions
    environmentVariables := descriptor.environmentVariables
    labels := descriptor.labels
    rules := descriptor.rules.map copySecurityRule
    groups := descriptor.groups.map copyServiceGroup }

/-- The coerced Go interface value handed to sjson.Set. -/
inductive ParamValue
  | boolVal (b : Bool)
  | intVal (i : Int)
  | floatVal (raw : String)
  | strVal (s : String)
deriving DecidableEq

/-- Primitives whose bit-exact behaviour lives outside this repository:
strconv.ParseFloat (float64 semantics) and the JSON round-trip
(encoding/json marshal/unmarshal, sjson.Set).  The theorems below hold for
every choice of these primitives. -/
structure GoPrims where
  parseFloat : String → Option String
  marshal : ParametrizedDescriptor → String
  sjsonSet : String → String → ParamValue → Except DError String
  unmarshal : String → Except DError ParametrizedDescriptor

/-- strconv.ParseBool: the twelve accepted literals. -/
def goParseBool (s : String) : Option Bool :=
  if s == "1" || s == "t" || s == "T" || s == "TRUE" || s == "true" || s == "True" then
    some true
  else if s == "0" || s == "f" || s == "F" || s == "FALSE" || s == "false" || s == "False" then
    some false
  else
    none

/-- Decimal digit run for goAtoi; empty or non-digit input fails.  The int64
range check of strconv.Atoi is not modelled; no claim depends on it. -/
def goDigits (cs : List Char) : Option Nat :=
  if cs = [] then none
  else if cs.all (fun c => c.isDigit) then
    some (cs.foldl (fun acc c => acc * 10 + (c.toNat - 48)) 0)
  else none

/-- strconv.Atoi: optional sign followed by decimal digits. -/
def goAtoi (s : String) : Option Int :=
  match s.data with
  | '+' :: rest => (goDigits rest).map (fun n => (n : Int))
  | '-' :: rest => (goDigits rest).map (fun n => -(n : Int))
  | l => (goDigits l).map (fun n => (n : Int))

/-- parameters.go findParameterInDescriptor: look up the definition of an
instance parameter among the descriptor's declared parameters.  A descriptor
with no declared parameters yields InvalidArgument; an unmatched name yields
NotFound carrying the name. -/
def findParameterInDescriptor (descriptor : AppDescriptor)
    (parameter : InstanceParameter) : Except DError AppParameter :=
  if descriptor.parameters = [] then
    Except.error ⟨ErrKind.invalidArgument,
      "Instance parameter not found. Descriptor has no parameters", []⟩
  else
    match descriptor.parameters.find? (fun param => param.name == parameter.parameterName) with
    | some param => Except.ok param
    | none => Except.error ⟨ErrKind.notFound,
        "Instance parameter not found in descriptor definition", [parameter.parameterName]⟩

/-- parameters.go validateInstanceParameter: coerce the raw string value
according to the declared type.  strconv parse failures are wrapped by
conversions.ToDerror into a generic error whose exact text comes from the Go
standard library and is abstracted here. -/
def validateInstanceParameter (prims : GoPrims) (paramDefinition : AppParameter)
    (parameter : InstanceParameter) : Except DError ParamValue :=
  match paramDefinition.type with
  | ParamDataType.boolean =>
    match goParseBool parameter.value with
    | some b => Except.ok (ParamValue.boolVal b)
    | none => Except.error ⟨ErrKind.generic, "strconv parse error", [parameter.value]⟩
  | ParamDataType.integer =>
    match goAtoi parameter.value with
    | some i => Except.ok (ParamValue.intVal i)
    | none => Except.error ⟨ErrKind.generic, "strconv parse error", [parameter.value]⟩
  | ParamDataType.float =>
    match prims.parseFloat parameter.value with
    | some f => Except.ok (ParamValue.floatVal f)
    | none => Except.error ⟨ErrKind.generic, "strconv parse error", [parameter.value]⟩
  | ParamDataType.enum =>
    if paramDefinition.enumValues.any (fun paramVal => paramVal == parameter.value) then
      Except.ok (ParamValue.strVal parameter.value)
    else
      Except.error ⟨ErrKind.invalidArgument, "Invalid parameter value",
        ["parameter", parameter.parameterName, "value", parameter.value]⟩
  | ParamDataType.string => Except.ok (ParamValue.strVal parameter.value)
  | ParamDataType.password => Except.ok (ParamValue.strVal parameter.value)

/-- parameters.go applyParameter: sjson.Set at the definition's declared path
(the preceding gjson.Get in the source is dead code). -/
def applyParameter (prims : GoPrims) (jsonParamDescriptor : String)
    (paramDefinition : AppParameter) (value : ParamValue) : Except DError String :=
  prims.sjsonSet jsonParamDescriptor paramDefinition.path value

/-- The per-parameter loop of CreateParametrizedDescriptor: resolve the
definition, validate the value, patch the document; the first failure aborts
the whole parametrization. -/
def applyParams (prims : GoPrims) (descriptor : AppDescriptor) (doc : String) :
    List InstanceParameter → Except DError String
  | [] => Except.ok doc
  | param :: rest =>
    match findParameterInDescriptor descriptor param with
    | Except.error e => Except.error e
    | Except.ok paramDefinition =>
      match validateInstanceParameter prims paramDefinition param with
      | Except.error e => Except.error e
      | Except.ok value =>
        match applyParameter prims doc paramDefinition value with
        | Except.error e => Except.error e
        | Except.ok newDoc => applyParams prims descriptor newDoc rest

/-- parameters.go CreateParametrizedDescriptor.  (The call site in manager.go
passes an additional organization-settings lookup that the entities
implementation in this tree does not take.) -/
def CreateParametrizedDescriptor (prims : GoPrims) (descriptor : AppDescriptor)
    (parameters : Option (List InstanceParameter)) :
    Except DError ParametrizedDescriptor :=
  let parametrized := newParametrizedDescriptorFromDescriptor descriptor
  match parameters with
  | none => Except.ok parametrized
  | some ps =>
    if ps = [] then Except.ok parametrized
    else
      match applyParams prims descriptor (prims.marshal parametrized) ps with
      | Except.error e => Except.error e
      | Except.ok jsonDescriptor => prims.unmarshal jsonDescriptor

-- Concrete fixtures for the parametrization claims.

def trivialPrims : GoPrims :=
  { parseFloat := fun _ => none
    marshal := fun _ => ""
    sjsonSet := fun doc _ _ => Except.ok doc
    unmarshal := fun _ => Except.error ⟨ErrKind.generic, "unmarshal unused", []⟩ }

def ruleFull : SecurityRule :=
  ⟨"org", "desc", "r1", "rule1", "g1", "service1", 80, 1, "g2", ["s3"], ["dg"], ["dgn"], "ob1"⟩

def groupWithSpecs : ServiceGroup :=
  ⟨"org", "desc", "g1", "g1", [], 0, some ⟨3, false⟩, []⟩

def descriptorC5 : AppDescriptor :=
  { emptyDescriptor with rules := [ruleFull], groups := [groupWithSpecs] }

def descriptorC6 : AppDescriptor :=
  { emptyDescriptor with parameters := [⟨"size", ParamDataType.string, "x", false, []⟩] }

def enumParamDef : AppParameter :=
  ⟨"color", ParamDataType.enum, "p", false, ["red", "green"]⟩

def descriptorC7 : AppDescriptor :=
  { emptyDescriptor with parameters := [enumParamDef] }

-- manager.go: Deploy (lines 264-412), Undeploy (415-480),
-- RemoveAppDescriptor (100-115), getInstanceConnections (483-514) and
-- GetAppInstance (533-544).  Remote collaborators are records of call
-- outcomes; the mutating calls a workflow issues are returned as a trace.

/-- grpc_application_network_go.ConnectionInstance (fields the manager reads
or writes; fields it never sets stay at their zero value). -/
structure ConnectionInstance where
  organizationId : String
  sourceInstanceId : String
  sourceInstanceName : String
  targetInstanceId : String
  inboundName : String
  outboundName : String
deriving DecidableEq

/-- grpc_application_network_go.RemoveConnectionRequest. -/
structure RemoveConnectionRequest where
  organizationId : String
  sourceInstanceId : String
  targetInstanceId : String
  inboundName : String
  outboundName : String
  userConfirmation : Bool
deriving DecidableEq

/-- grpc_application_manager_go.DeployRequest (fields read by Deploy). -/
structure DeployRequest where
  organizationId : String
  appDescriptorId : String
  name : String
  parameters : Option (List InstanceParameter)
  outboundConnections : List ConnectionRequest
deriving DecidableEq

/-- grpc_conductor_go.DeploymentRequest (the nested AppInstanceId message is
flattened into its two fields). -/
structure ConductorDeploymentRequest where
  requestId : String
  organizationId : String
  appInstanceId : String
  name : String
  outboundConnections : List (Option ConnectionInstance)
deriving DecidableEq

/-- grpc_application_go.ApplicationStatus (only QUEUED is used here). -/
inductive ApplicationStatus
  | queued
deriving DecidableEq

/-- grpc_application_manager_go.DeploymentResponse. -/
structure DeploymentResponse where
  requestId : String
  appInstanceId : String
  status : ApplicationStatus
deriving DecidableEq

/-- grpc_application_manager_go.UndeployRequest. -/
structure UndeployRequest where
  organizationId : String
  appInstanceId : String
  userConfirmation : Bool
deriving DecidableEq

/-- grpc_conductor_go.UndeployRequest. -/
structure ConductorUndeployRequest where
  organizationId : String
  appInstanceId : String
deriving DecidableEq

/-- grpc_application_go.AppDescriptorId. -/
structure AppDescriptorId where
  organizationId : String
  appDescriptorId : String
deriving DecidableEq

/-- Inner rule scan of Deploy's connection-resolution loop (manager.go
325-329): the running sourceInstanceName is overwritten by every rule whose
outbound interface matches — there is no break, so the last matching rule
wins; it starts at the empty string. -/
def resolveSourceName (rules : List SecurityRule) (sourceOutboundName : String) : String :=
  rules.foldl (fun acc rule =>
    if rule.outboundNetInterface == sourceOutboundName then rule.targetServiceName else acc) ""

/-- Deploy's connection-resolution loop (manager.go 321-341): the result slice
is allocated with `make([]*ConnectionInstance, len(requests))` and written by
index, so a request whose outbound name resolves to no service name leaves a
nil entry (`none`) at its index — the `continue` skips the write, it does not
shrink the list. -/
def resolveConnections (descOrganizationId : String) (rules : List SecurityRule)
    (requests : List ConnectionRequest) : List (Option ConnectionInstance) :=
  requests.map (fun connectionRequest =>
    let sourceInstanceName := resolveSourceName rules connectionRequest.sourceOutboundName
    if sourceInstanceName == "" then none
    else some
      { organizationId := descOrganizationId
        sourceInstanceId := ""
        sourceInstanceName := sourceInstanceName
        targetInstanceId := connectionRequest.targetInstanceId
        inboundName := connectionRequest.targetInboundName
        outboundName := connectionRequest.sourceOutboundName })

/-- Specification value (wording of C8): the target service name of the last
rule whose outbound interface matches, or the empty string. -/
def lastMatchTarget (rules : List SecurityRule) (sourceOutboundName : String) : String :=
  match (rules.filter (fun rule => rule.outboundNetInterface == sourceOutboundName)).getLast? with
  | none => ""
  | some rule => rule.targetServiceName

/-- External collaborators of Deploy: each field is the outcome the
corresponding remote call produces during this request.  rand1/rand2 are the
two rand.Int draws. -/
structure DeployEnv where
  prims : GoPrims
  getAppDescriptor : Except GoErr AppDescriptor
  getAppInstance : String → String → Option AppInstanceRec
  addAppInstance : Except GoErr AppInstanceRec
  addParametrizedDescriptor : ParametrizedDescriptor → Except GoErr ParametrizedDescriptor
  removeAppInstance : Except GoErr Success
  updateAppInstance : AppInstanceRec → Except GoErr Success
  sendDeploy : ConductorDeploymentRequest → Except GoErr Unit
  rand1 : Nat
  rand2 : Nat

/-- Calls Deploy issues, in order. -/
inductive DeployCall
  | getAppDescriptorCall
  | addAppInstanceCall
  | addParametrizedDescriptorCall (pd : ParametrizedDescriptor)
  | removeAppInstanceCall (organizationId instanceId : String)
  | updateAppInstanceCall (inst : AppInstanceRec)
  | sendDeployCall (r : ConductorDeploymentRequest)
deriving DecidableEq

/-- Final enqueue step of Deploy (manager.go 386-410). -/
def deployEnqueue (env : DeployEnv) (deployRequest : DeployRequest)
    (instanceId : String) (connections : List (Option ConnectionInstance))
    (callsSoFar : List DeployCall) :
    Except ManagerError DeploymentResponse × List DeployCall :=
  let request : ConductorDeploymentRequest :=
    { requestId := "app-mngr-" ++ toString env.rand1
      organizationId := deployRequest.organizationId
      appInstanceId := instanceId
      name := deployRequest.name
      outboundConnections := connections }
  match env.sendDeploy request with
  | Except.error e =>
    (Except.error (ManagerError.grpc e), callsSoFar ++ [DeployCall.sendDeployCall request])
  | Except.ok _ =>
    (Except.ok
      { requestId := "app-mngr-" ++ toString env.rand2
        appInstanceId := instanceId
        status := ApplicationStatus.queued },
      callsSoFar ++ [DeployCall.sendDeployCall request])

/-- manager.go Deploy.  conversions.ToGRPCError is modelled as the identity on
the derrors payload; the organization-settings value built before
parametrization is not consumed by the entities implementation in this tree
and has no observable effect. -/
def Deploy (env : DeployEnv) (deployRequest : DeployRequest) :
    Except ManagerError DeploymentResponse × List DeployCall :=
  match env.getAppDescriptor with
  | Except.error e =>
    (Except.error (ManagerError.grpc e), [DeployCall.getAppDescriptorCall])
  | Except.ok desc =>
    match checkAllRequiredParametersAreFilled desc deployRequest.parameters with
    | some e => (Except.error (ManagerError.derror e), [DeployCall.getAppDescriptorCall])
    | none =>
      match checkConnections env.getAppInstance deployRequest.organizationId
          deployRequest.outboundConnections desc.outboundNetInterfaces with
      | some e => (Except.error (ManagerError.derror e), [DeployCall.getAppDescriptorCall])
      | none =>
        match CreateParametrizedDescriptor env.prims desc deployRequest.parameters with
        | Except.error e => (Except.error (ManagerError.derror e), [DeployCall.getAppDescriptorCall])
        | Except.ok parametrizedDesc =>
          match env.addAppInstance with
          | Except.error e =>
            (Except.error (ManagerError.grpc e),
              [DeployCall.getAppDescriptorCall, DeployCall.addAppInstanceCall])
          | Except.ok instance1 =>
            let connections := resolveConnections desc.organizationId instance1.rules
              deployRequest.outboundConnections
            let pd := { parametrizedDesc with appInstanceId := instance1.appInstanceId }
            match env.addParametrizedDescriptor pd with
            | Except.error e =>
              (Except.error (ManagerError.grpc e),
                [DeployCall.getAppDescriptorCall, DeployCall.addAppInstanceCall,
                 DeployCall.addParametrizedDescriptorCall pd,
                 DeployCall.removeAppInstanceCall deployRequest.organizationId
                   instance1.appInstanceId])
            | Except.ok newDesc =>
              if 0 < pd.rules.length then
                let instance2 := { instance1 with
                  rules := newDesc.rules
                  configurationOptions := newDesc.configurationOptions
                  environmentVariables := newDesc.environmentVariables
                  labels := newDesc.labels }
                match env.updateAppInstance instance2 with
                | Except.error e =>
                  (Except.error (ManagerError.grpc e),
                    [DeployCall.getAppDescriptorCall, DeployCall.addAppInstanceCall,
                     DeployCall.addParametrizedDescriptorCall pd,
                     DeployCall.updateAppInstanceCall instance2,
                     DeployCall.removeAppInstanceCall deployRequest.organizationId
                       instance1.appInstanceId])
                | Except.ok _ =>
                  deployEnqueue env deployRequest instance1.appInstanceId connections
                    [DeployCall.getAppDescriptorCall, DeployCall.addAppInstanceCall,
                     DeployCall.addParametrizedDescriptorCall pd,
                     DeployCall.updateAppInstanceCall instance2]
              else
                deployEnqueue env deployRequest instance1.appInstanceId connections
                  [DeployCall.getAppDescriptorCall, DeployCall.addAppInstanceCall,
                   DeployCall.addParametrizedDescriptorCall pd]

/-- External collaborators of Undeploy. -/
structure UndeployEnv where
  getAppInstance : Except GoErr AppInstanceRec
  listInboundConnections : Except GoErr (List ConnectionInstance)
  listOutboundConnections : Except GoErr (List ConnectionInstance)
  removeConnection : RemoveConnectionRequest → Except GoErr Success
  sendUndeploy : ConductorUndeployRequest → Except GoErr Unit

/-- grpc_application_manager_go.AppInstance: the raw instance expanded with
its resolved connection lists. -/
structure ExpandedAppInstance where
  base : AppInstanceRec
  inboundConnections : List ConnectionInstance
  outboundConnections : List ConnectionInstance
deriving DecidableEq

/-- Modelled from the spec: `entities.ToAppInstance` (the Instance Expansion
conversion of spec sections 2 and 3) is not part of this tree; per the spec it
carries the raw instance over, with the resolved connection lists attached
afterwards by getInstanceConnections.  Modelled as the base conversion with
empty connection lists. -/
def ToAppInstance (instance1 : AppInstanceRec) : ExpandedAppInstance :=
  ⟨instance1, [], []⟩

/-- manager.go getInstanceConnections: attach the inbound and outbound
connection lists; a listing error is logged and leaves the list as it was. -/
def getInstanceConnections (env : UndeployEnv) (instance1 : AppInstanceRec) :
    ExpandedAppInstance :=
  let expandInstance := ToAppInstance instance1
  let expandInstance2 :=
    match env.listInboundConnections with
    | Except.error _ => expandInstance
    | Except.ok conns => { expandInstance with inboundConnections := conns }
  match env.listOutboundConnections with
  | Except.error _ => expandInstance2
  | Except.ok conns => { expandInstance2 with outboundConnections := conns }

/-- manager.go GetAppInstance (manager method): fetch the raw instance and
expand it with its connections. -/
def GetAppInstanceM (env : UndeployEnv) : Except GoErr ExpandedAppInstance :=
  match env.getAppInstance with
  | Except.error e => Except.error e
  | Except.ok inst => Except.ok (getInstanceConnections env inst)

/-- Calls Undeploy issues, in order. -/
inductive UndeployCall
  | removeConnectionCall (r : RemoveConnectionRequest)
  | sendUndeployCall (r : ConductorUndeployRequest)
deriving DecidableEq

/-- The RemoveConnectionRequest Undeploy builds for one connection (with
forced user confirmation). -/
def mkRemoveConnectionRequest (conn : ConnectionInstance) : RemoveConnectionRequest :=
  { organizationId := conn.organizationId
    sourceInstanceId := conn.sourceInstanceId
    targetInstanceId := conn.targetInstanceId
    inboundName := conn.inboundName
    outboundName := conn.outboundName
    userConfirmation := true }

/-- manager.go Undeploy: guard on inbound connections without confirmation,
best-effort removal of every inbound and outbound connection (a removal
outcome is logged and never consulted), then the teardown enqueue as the sole
remaining hard failure. -/
def Undeploy (env : UndeployEnv) (undeployRequest : UndeployRequest) :
    Except ManagerError Success × List UndeployCall :=
  match GetAppInstanceM env with
  | Except.error e => (Except.error (ManagerError.grpc e), [])
  | Except.ok instance1 =>
    if 0 < instance1.inboundConnections.length ∧ undeployRequest.userConfirmation = false then
      (Except.error (ManagerError.derror ⟨ErrKind.failedPrecondition,
        "can not undeploy the instance, it has inbound connections. User confirmation required",
        []⟩), [])
    else
      let removeCalls :=
        (instance1.inboundConnections ++ instance1.outboundConnections).map
          (fun conn => UndeployCall.removeConnectionCall (mkRemoveConnectionRequest conn))
      let appInstanceID : ConductorUndeployRequest :=
        ⟨undeployRequest.organizationId, undeployRequest.appInstanceId⟩
      match env.sendUndeploy appInstanceID with
      | Except.error e =>
        (Except.error (ManagerError.grpc e),
          removeCalls ++ [UndeployCall.sendUndeployCall appInstanceID])
      | Except.ok _ =>
        (Except.ok Success.mk, removeCalls ++ [UndeployCall.sendUndeployCall appInstanceID])

/-- External collaborators of RemoveAppDescriptor. -/
structure RemoveDescriptorEnv where
  listAppInstances : Except GoErr (List AppInstanceRec)
  removeAppDescriptor : Except GoErr Success

/-- Calls RemoveAppDescriptor issues, in order. -/
inductive RemoveDescriptorCall
  | listAppInstancesCall
  | removeAppDescriptorCall
deriving DecidableEq

/-- manager.go RemoveAppDescriptor: refuse with a failed precondition while
any instance of the organization still references the descriptor; forward the
removal to the store only otherwise. -/
def RemoveAppDescriptor (env : RemoveDescriptorEnv) (appDescriptorID : AppDescriptorId) :
    Except ManagerError Success × List RemoveDescriptorCall :=
  match env.listAppInstances with
  | Except.error e =>
    (Except.error (ManagerError.grpc e), [RemoveDescriptorCall.listAppInstancesCall])
  | Except.ok instances =>
    if instances.any (fun inst => inst.appDescriptorId == appDescriptorID.appDescriptorId) then
      (Except.error (ManagerError.derror ⟨ErrKind.failedPrecondition,
        "application instances must be removed before deleting the descriptor", []⟩),
        [RemoveDescriptorCall.listAppInstancesCall])
    else
      match env.removeAppDescriptor with
      | Except.error e =>
        (Except.error (ManagerError.grpc e),
          [RemoveDescriptorCall.listAppInstancesCall,
           RemoveDescriptorCall.removeAppDescriptorCall])
      | Except.ok s =>
        (Except.ok s,
          [RemoveDescriptorCall.listAppInstancesCall,
           RemoveDescriptorCall.removeAppDescriptorCall])

-- Concrete fixtures for the orchestrator claims.

def instD : AppInstanceRec :=
  ⟨"org", "desc", "inst-1", "app", [], [], [], [], []⟩

def reqD : DeployRequest :=
  ⟨"org", "desc", "app", none, []⟩

def envC1 : DeployEnv :=
  { prims := trivialPrims
    getAppDescriptor := Except.ok emptyDescriptor
    getAppInstance := fun _ _ => none
    addAppInstance := Except.ok instD
    addParametrizedDescriptor := fun _ => Except.error "persist failed"
    removeAppInstance := Except.error "rollback failed"
    updateAppInstance := fun _ => Except.ok Success.mk
    sendDeploy := fun _ => Except.ok ()
    rand1 := 1
    rand2 := 2 }

def instC8 : AppInstanceRec :=
  ⟨"org", "desc", "inst-8", "app", [], [], [], [], []⟩

def reqC8 : DeployRequest :=
  ⟨"org", "desc", "app", none, [⟨"unmatched-out", "tj", "in1"⟩]⟩

def envC8 : DeployEnv :=
  { prims := trivialPrims
    getAppDescriptor := Except.ok emptyDescriptor
    getAppInstance := lookupTI
    addAppInstance := Except.ok instC8
    addParametrizedDescriptor := fun pd => Except.ok pd
    removeAppInstance := Except.ok Success.mk
    updateAppInstance := fun _ => Except.ok Success.mk
    sendDeploy := fun _ => Except.ok ()
    rand1 := 1
    rand2 := 2 }

def connIn : ConnectionInstance :=
  ⟨"org", "src-inst", "", "inst-1", "inb", "outb"⟩

def connOut : ConnectionInstance :=
  ⟨"org", "inst-1", "", "tgt-inst", "inb2", "outb2"⟩

def envC2 : UndeployEnv :=
  { getAppInstance := Except.ok instD
    listInboundConnections := Except.ok [connIn]
    listOutboundConnections := Except.ok [connOut]
    removeConnection := fun _ => Except.error "remove failed"
    sendUndeploy := fun _ => Except.ok () }

def reqU : UndeployRequest :=
  ⟨"org", "inst-1", true⟩

def instD9 : AppInstanceRec :=
  ⟨"org", "desc-9", "inst-9", "app", [], [], [], [], []⟩

def envC9 : RemoveDescriptorEnv :=
  ⟨Except.ok [instD9], Except.ok Success.mk⟩

-- ===================================================================
-- Theorems
-- ===================================================================

/-- Stepping lemma: a non-required head is skipped. -/
theorem checkRequiredLoop_skip (params : Option (List InstanceParameter))
    (p : AppParameter) (rest : List AppParameter) (hreq : ¬ p.required = true) :
    checkRequiredLoop params (p :: rest) = checkRequiredLoop params rest := by
  conv_lhs => unfold checkRequiredLoop
  rw [if_neg hreq]

/-- Stepping lemma: a required head with a matching deploy parameter is
skipped. -/
theorem checkRequiredLoop_found (params : Option (List InstanceParameter))
    (p : AppParameter) (rest : List AppParameter) (hreq : p.required = true)
    (hfind : (paramsList params).any (fun dp => dp.parameterName == p.name) = true) :
    checkRequiredLoop params (p :: rest) = checkRequiredLoop params rest := by
  conv_lhs => unfold checkRequiredLoop
  rw [if_pos hreq]
  cases params with
  | none => simp [paramsList] at hfind
  | some psl =>
    simp only [paramsList] at hfind
    simp [hfind]

/-- Stepping lemma: a required head with no matching deploy parameter fails. -/
theorem checkRequiredLoop_missing (params : Option (List InstanceParameter))
    (p : AppParameter) (rest : List AppParameter) (hreq : p.required = true)
    (hfind : ¬ (paramsList params).any (fun dp => dp.parameterName == p.name) = true) :
    checkRequiredLoop params (p :: rest) =
      some ⟨ErrKind.failedPrecondition, RequiredParamNotFilled, []⟩ := by
  conv_lhs => unfold checkRequiredLoop
  rw [if_pos hreq]
  cases params with
  | none => simp
  | some psl =>
    simp only [paramsList] at hfind
    simp [hfind]

theorem checkRequiredLoop_none_iff (params : Option (List InstanceParameter))
    (ps : List AppParameter) :
    (checkRequiredLoop params ps = none ↔
      ∀ p ∈ ps, p.required = true →
        ∃ ip ∈ paramsList params, ip.parameterName = p.name) ∧
    (∀ e, checkRequiredLoop params ps = some e →
      e = ⟨ErrKind.failedPrecondition, RequiredParamNotFilled, []⟩) := by
  induction ps with
  | nil => simp [checkRequiredLoop]
  | cons p rest ih =>
    by_cases hreq : p.required = true
    · by_cases hfind : (paramsList params).any (fun dp => dp.parameterName == p.name) = true
      · rw [checkRequiredLoop_found params p rest hreq hfind]
        constructor
        · rw [ih.1]
          constructor
          · intro h q hq hqreq
            rcases List.mem_cons.mp hq with rfl | hq
            · rcases List.any_eq_true.mp hfind with ⟨ip, hip, hipend⟩
              exact ⟨ip, hip, by simpa using hipend⟩
            · exact h q hq hqreq
          · intro h q hq hqreq
            exact h q (List.mem_cons_of_mem p hq) hqreq
        · exact ih.2
      · rw [checkRequiredLoop_missing params p rest hreq hfind]
        constructor
        · constructor
          · intro h; cases h
          · intro h
            rcases h p (List.mem_cons_self p rest) hreq with ⟨ip, hip, hnm⟩
            exact absurd (List.any_eq_true.mpr ⟨ip, hip, by simpa using hnm⟩) hfind
        · intro e he
          cases he
          rfl
    · rw [checkRequiredLoop_skip params p rest hreq]
      constructor
      · rw [ih.1]
        constructor
        · intro h q hq hqreq
          rcases List.mem_cons.mp hq with rfl | hq
          · exact absurd hqreq hreq
          · exact h q hq hqreq
        · intro h q hq hqreq
          exact h q (List.mem_cons_of_mem p hq) hqreq
      · exact ih.2

/-- C4, counterexample: two descriptors whose single required parameter is
named `alpha` resp. `beta` produce, when the parameter is missing, the very
same failed-precondition error with the fixed message and an empty parameter
list — so the error cannot name the missing parameter, refuting the claim
that it does. -/
theorem checkAllRequiredParameters_counterexample :
    checkAllRequiredParametersAreFilled descriptorAlpha none =
      some ⟨ErrKind.failedPrecondition, RequiredParamNotFilled, []⟩ ∧
    checkAllRequiredParametersAreFilled descriptorBeta none =
      some ⟨ErrKind.failedPrecondition, RequiredParamNotFilled, []⟩ ∧
    checkAllRequiredParametersAreFilled descriptorAlpha none =
      checkAllRequiredParametersAreFilled descriptorBeta none := by
  exact ⟨rfl, rfl, rfl⟩

/-- C4 (amended): the required-parameter check passes if and only if every
descriptor parameter with Required set has an instance parameter of the same
name; when one is missing it fails with a failed-precondition error carrying
the fixed message `Required parameter not filled` and no parameters (the
missing parameter's name is not included in the error). -/
theorem checkAllRequiredParameters_amended (desc : AppDescriptor)
    (params : Option (List InstanceParameter)) :
    (checkAllRequiredParametersAreFilled desc params = none ↔
      ∀ p ∈ desc.parameters, p.required = true →
        ∃ ip ∈ paramsList params, ip.parameterName = p.name) ∧
    (∀ e, checkAllRequiredParametersAreFilled desc params = some e →
      e = ⟨ErrKind.failedPrecondition, RequiredParamNotFilled, []⟩) :=
  checkRequiredLoop_none_iff params desc.parameters

/-- C4, witness: the amended characterization evaluated at a concrete
descriptor whose required parameter `alpha` is supplied. -/
theorem checkAllRequiredParameters_amended_witness :
    checkAllRequiredParametersAreFilled descriptorAlpha (some [⟨"alpha", "v"⟩]) = none :=
  (checkAllRequiredParameters_amended descriptorAlpha (some [⟨"alpha", "v"⟩])).1.mpr
    (by decide)

/-- Helper: the inbound scan emits exactly one response, determined by the
first requested name with no matching inbound interface. -/
theorem checkInboundsScan_eq (instanceID : String) (inst : AppInstanceRec)
    (names : List String) :
    checkInboundsScan instanceID inst names =
      match names.find? (fun n =>
          !(inst.inboundNetInterfaces.any (fun inbound => inbound.name == n))) with
      | some n => [⟨instanceID, n, false⟩]
      | none => [⟨instanceID, "", true⟩] := by
  induction names with
  | nil => rfl
  | cons n rest ih =>
    by_cases h : inst.inboundNetInterfaces.any (fun inbound => inbound.name == n) = true
    · have hstep : checkInboundsScan instanceID inst (n :: rest) =
          checkInboundsScan instanceID inst rest := by
        conv_lhs => unfold checkInboundsScan
        rw [if_pos h]
      rw [hstep, ih, List.find?_cons]
      simp [h]
    · have hstep : checkInboundsScan instanceID inst (n :: rest) =
          [⟨instanceID, n, false⟩] := by
        conv_lhs => unfold checkInboundsScan
        rw [if_neg h]
      rw [hstep, List.find?_cons]
      simp [h]

/-- Helper: checkInbounds sends exactly the single expected response. -/
theorem checkInbounds_eq (g : String → String → Option AppInstanceRec)
    (org id : String) (names : List String) :
    checkInbounds g org id names = [checkInboundsExpected g org id names] := by
  unfold checkInbounds checkInboundsExpected
  cases hg : g org id with
  | none => rfl
  | some inst =>
    dsimp only
    rw [checkInboundsScan_eq]
    cases hfind : names.find? (fun n =>
        !(inst.inboundNetInterfaces.any (fun inbound => inbound.name == n))) <;> rfl

/-- C10: every invocation of checkInbounds sends exactly one response on the
channel: success when the lookup succeeded and every requested inbound name is
declared, failure with the first missing name when one is absent, and failure
with an empty name when the lookup failed. -/
theorem checkInbounds_exactly_one_response
    (g : String → String → Option AppInstanceRec) (org id : String)
    (names : List String) :
    checkInbounds g org id names = [checkInboundsExpected g org id names] :=
  checkInbounds_eq g org id names

/-- Helper: the expected response is a success exactly when the lookup
succeeds and every requested name is declared. -/
theorem checkInboundsExpected_true_iff (g : String → String → Option AppInstanceRec)
    (org id : String) (names : List String) :
    (checkInboundsExpected g org id names).result = true ↔
      ∃ inst, g org id = some inst ∧
        ∀ n ∈ names, inst.inboundNetInterfaces.any (fun inbound => inbound.name == n) = true := by
  unfold checkInboundsExpected
  cases hg : g org id with
  | none => simp
  | some inst =>
    dsimp only
    cases hf : names.find? (fun n =>
        !(inst.inboundNetInterfaces.any (fun inbound => inbound.name == n))) with
    | some n =>
      dsimp only
      constructor
      · intro h
        exact absurd h (by decide)
      · rintro ⟨inst2, hinst2, hall⟩
        injection hinst2 with hinst2
        subst hinst2
        have hmem := List.mem_of_find?_eq_some hf
        have hpred := List.find?_some hf
        rw [hall n hmem] at hpred
        cases hpred
    | none =>
      dsimp only
      constructor
      · intro _
        refine ⟨inst, rfl, ?_⟩
        intro n hn
        have hnone := List.find?_eq_none.mp hf n hn
        simpa using hnone
      · intro _
        rfl

/-- Helper: the result-collection loop accepts exactly when every response is
a success. -/
theorem firstFailure_none_iff (rs : List CheckInboundResponse) :
    firstFailure rs = none ↔ ∀ r ∈ rs, r.result = true := by
  induction rs with
  | nil => simp [firstFailure]
  | cons r rest ih =>
    unfold firstFailure
    by_cases h : r.result = false
    · rw [if_pos h]
      constructor
      · intro hn
        by_cases hib : r.inboundName ≠ ""
        · rw [if_pos hib] at hn; cases hn
        · rw [if_neg hib] at hn; cases hn
      · intro hall
        exact absurd (hall r (List.mem_cons_self r rest)) (by simp [h])
    · rw [if_neg h]
      rw [ih]
      have hr : r.result = true := by
        cases hrr : r.result
        · exact absurd hrr h
        · rfl
      constructor
      · intro hall q hq
        rcases List.mem_cons.mp hq with rfl | hq
        · exact hr
        · exact hall q hq
      · intro hall q hq
        exact hall q (List.mem_cons_of_mem r hq)

/-- Helper: a failure reported by the result-collection loop comes from some
failed response in the list and has the shape the loop builds for it. -/
theorem firstFailure_some (rs : List CheckInboundResponse) (e : DError)
    (h : firstFailure rs = some e) :
    ∃ r ∈ rs, r.result = false ∧
      ((r.inboundName ≠ "" ∧
          e = ⟨ErrKind.failedPrecondition, "no inbound interface found",
            [r.instanceId, r.inboundName]⟩) ∨
       (r.inboundName = "" ∧
          e = ⟨ErrKind.failedPrecondition, "instance not found", [r.instanceId]⟩)) := by
  induction rs with
  | nil => cases h
  | cons r rest ih =>
    unfold firstFailure at h
    by_cases hres : r.result = false
    · rw [if_pos hres] at h
      by_cases hib : r.inboundName ≠ ""
      · rw [if_pos hib] at h
        injection h with h
        exact ⟨r, List.mem_cons_self r rest, hres, Or.inl ⟨hib, h.symm⟩⟩
      · rw [if_neg hib] at h
        injection h with h
        exact ⟨r, List.mem_cons_self r rest, hres,
          Or.inr ⟨not_not.mp hib, h.symm⟩⟩
    · rw [if_neg hres] at h
      rcases ih h with ⟨q, hq, hqs⟩
      exact ⟨q, List.mem_cons_of_mem r hq, hqs⟩

/-- Helper: the fan-out produces exactly one expected response per map
entry. -/
theorem runChecks_eq_map (g : String → String → Option AppInstanceRec)
    (org : String) (gs : List (String × List String)) :
    runChecks g org gs = gs.map (fun p => checkInboundsExpected g org p.1 p.2) := by
  induction gs with
  | nil => rfl
  | cons p rest ih =>
    obtain ⟨id, ns⟩ := p
    unfold runChecks
    rw [checkInbounds_eq, ih]
    rfl

/-- Helper: the sequential required-outbound pass fails exactly on the first
required outbound covered by no requested connection. -/
theorem checkRequiredOutbounds_eq_find (conns : List ConnectionRequest)
    (outs : List OutboundNetworkInterface) :
    checkRequiredOutbounds conns outs =
      match outs.find? (fun o =>
          o.required && !(conns.any (fun c => c.sourceOutboundName == o.name))) with
      | some o => some ⟨ErrKind.failedPrecondition, RequiredOutboundNotFilled, [o.name]⟩
      | none => none := by
  induction outs with
  | nil => rfl
  | cons o rest ih =>
    rw [List.find?_cons]
    by_cases hreq : o.required = true
    · by_cases hany : conns.any (fun c => c.sourceOutboundName == o.name) = true
      · have hstep : checkRequiredOutbounds conns (o :: rest) =
            checkRequiredOutbounds conns rest := by
          conv_lhs => unfold checkRequiredOutbounds
          rw [if_pos hreq, if_pos hany]
        rw [hstep, ih]
        have hpred : (o.required && !(conns.any (fun c => c.sourceOutboundName == o.name))) = false := by
          rw [hreq, hany]
          rfl
        rw [hpred]
      · have hstep : checkRequiredOutbounds conns (o :: rest) =
            some ⟨ErrKind.failedPrecondition, RequiredOutboundNotFilled, [o.name]⟩ := by
          conv_lhs => unfold checkRequiredOutbounds
          rw [if_pos hreq, if_neg hany]
        have hany2 : conns.any (fun c => c.sourceOutboundName == o.name) = false := by
          cases ha : conns.any (fun c => c.sourceOutboundName == o.name)
          · rfl
          · exact absurd ha hany
        rw [hstep]
        have hpred : (o.required && !(conns.any (fun c => c.sourceOutboundName == o.name))) = true := by
          rw [hreq, hany2]
          rfl
        rw [hpred]
    · have hstep : checkRequiredOutbounds conns (o :: rest) =
          checkRequiredOutbounds conns rest := by
        conv_lhs => unfold checkRequiredOutbounds
        rw [if_neg hreq]
      have hreq2 : o.required = false := by
        cases hr : o.required
        · rfl
        · exact absurd hr hreq
      rw [hstep, ih]
      have hpred : (o.required && !(conns.any (fun c => c.sourceOutboundName == o.name))) = false := by
        rw [hreq2]
        rfl
      rw [hpred]

/-- Helper: membership of an (instance, inbound) pair after one map
insertion. -/
theorem insertInbound_mem (acc : List (String × List String)) (id n id2 n2 : String) :
    (∃ ns, (id2, ns) ∈ insertInbound acc id n ∧ n2 ∈ ns) ↔
      ((∃ ns, (id2, ns) ∈ acc ∧ n2 ∈ ns) ∨ (id2 = id ∧ n2 = n)) := by
  induction acc with
  | nil =>
    constructor
    · rintro ⟨ns, hns, hn2⟩
      have hpair : id2 = id ∧ ns = [n] := by
        simpa [insertInbound] using hns
      refine Or.inr ⟨hpair.1, ?_⟩
      rw [hpair.2] at hn2
      simpa using hn2
    · rintro (⟨ns, hns, hn2⟩ | ⟨h1, h2⟩)
      · cases hns
      · exact ⟨[n], by simp [insertInbound, h1], by simp [h2]⟩
  | cons hd rest ih =>
    obtain ⟨k, ks⟩ := hd
    unfold insertInbound
    by_cases hk : (k == id) = true
    · have hkid : k = id := by simpa using hk
      rw [if_pos hk]
      constructor
      · rintro ⟨ns, hns, hn2⟩
        rcases List.mem_cons.mp hns with heq | hns
        · have h1 : id2 = k := congrArg Prod.fst heq
          have h2 : ns = ks ++ [n] := congrArg Prod.snd heq
          rw [h2] at hn2
          rcases List.mem_append.mp hn2 with hx | hx
          · refine Or.inl ⟨ks, ?_, hx⟩
            rw [h1]
            exact List.mem_cons_self _ _
          · exact Or.inr ⟨h1.trans hkid, List.mem_singleton.mp hx⟩
        · exact Or.inl ⟨ns, List.mem_cons_of_mem _ hns, hn2⟩
      · rintro (⟨ns, hns, hn2⟩ | ⟨h1, h2⟩)
        · rcases List.mem_cons.mp hns with heq | hns
          · have h1 : id2 = k := congrArg Prod.fst heq
            have h2 : ns = ks := congrArg Prod.snd heq
            refine ⟨ks ++ [n], ?_, List.mem_append.mpr (Or.inl (h2 ▸ hn2))⟩
            rw [h1]
            exact List.mem_cons_self _ _
          · exact ⟨ns, List.mem_cons_of_mem _ hns, hn2⟩
        · refine ⟨ks ++ [n], ?_, ?_⟩
          · rw [h1, ← hkid]
            exact List.mem_cons_self _ _
          · rw [h2]
            exact List.mem_append.mpr (Or.inr (List.mem_singleton.mpr rfl))
    · rw [if_neg hk]
      constructor
      · rintro ⟨ns, hns, hn2⟩
        rcases List.mem_cons.mp hns with heq | hns
        · exact Or.inl ⟨ns, List.mem_cons.mpr (Or.inl heq), hn2⟩
        · rcases ih.mp ⟨ns, hns, hn2⟩ with ⟨ms, hms, hm⟩ | hcase
          · exact Or.inl ⟨ms, List.mem_cons_of_mem _ hms, hm⟩
          · exact Or.inr hcase
      · rintro (⟨ns, hns, hn2⟩ | hcase)
        · rcases List.mem_cons.mp hns with heq | hns
          · exact ⟨ns, List.mem_cons.mpr (Or.inl heq), hn2⟩
          · rcases ih.mpr (Or.inl ⟨ns, hns, hn2⟩) with ⟨ms, hms, hm⟩
            exact ⟨ms, List.mem_cons_of_mem _ hms, hm⟩
        · rcases ih.mpr (Or.inr hcase) with ⟨ms, hms, hm⟩
          exact ⟨ms, List.mem_cons_of_mem _ hms, hm⟩

/-- Helper: key membership after one map insertion. -/
theorem insertInbound_key (acc : List (String × List String)) (id n id2 : String) :
    (∃ ns, (id2, ns) ∈ insertInbound acc id n) ↔
      ((∃ ns, (id2, ns) ∈ acc) ∨ id2 = id) := by
  induction acc with
  | nil =>
    constructor
    · rintro ⟨ns, hns⟩
      have hpair : id2 = id ∧ ns = [n] := by
        simpa [insertInbound] using hns
      exact Or.inr hpair.1
    · rintro (⟨ns, hns⟩ | h1)
      · cases hns
      · exact ⟨[n], by simp [insertInbound, h1]⟩
  | cons hd rest ih =>
    obtain ⟨k, ks⟩ := hd
    unfold insertInbound
    by_cases hk : (k == id) = true
    · have hkid : k = id := by simpa using hk
      rw [if_pos hk]
      constructor
      · rintro ⟨ns, hns⟩
        rcases List.mem_cons.mp hns with heq | hns
        · exact Or.inr ((congrArg Prod.fst heq).trans hkid)
        · exact Or.inl ⟨ns, List.mem_cons_of_mem _ hns⟩
      · rintro (⟨ns, hns⟩ | h1)
        · rcases List.mem_cons.mp hns with heq | hns
          · have h1 : id2 = k := congrArg Prod.fst heq
            refine ⟨ks ++ [n], ?_⟩
            rw [h1]
            exact List.mem_cons_self _ _
          · exact ⟨ns, List.mem_cons_of_mem _ hns⟩
        · refine ⟨ks ++ [n], ?_⟩
          rw [h1, ← hkid]
          exact List.mem_cons_self _ _
    · rw [if_neg hk]
      constructor
      · rintro ⟨ns, hns⟩
        rcases List.mem_cons.mp hns with heq | hns
        · exact Or.inl ⟨ns, List.mem_cons.mpr (Or.inl heq)⟩
        · rcases ih.mp ⟨ns, hns⟩ with ⟨ms, hms⟩ | hcase
          · exact Or.inl ⟨ms, List.mem_cons_of_mem _ hms⟩
          · exact Or.inr hcase
      · rintro (⟨ns, hns⟩ | hcase)
        · rcases List.mem_cons.mp hns with heq | hns
          · exact ⟨ns, List.mem_cons.mpr (Or.inl heq)⟩
          · rcases ih.mpr (Or.inl ⟨ns, hns⟩) with ⟨ms, hms⟩
            exact ⟨ms, List.mem_cons_of_mem _ hms⟩
        · rcases ih.mpr (Or.inr hcase) with ⟨ms, hms⟩
          exact ⟨ms, List.mem_cons_of_mem _ hms⟩

/-- Helper: (instance, inbound) pairs present after grouping the connection
list are exactly the pairs of some connection, starting from any
accumulator. -/
theorem groupConnectionsGo_mem (conns : List ConnectionRequest)
    (acc : List (String × List String)) (id n : String) :
    (∃ ns, (id, ns) ∈ groupConnectionsGo acc conns ∧ n ∈ ns) ↔
      ((∃ ns, (id, ns) ∈ acc ∧ n ∈ ns) ∨
        ∃ c ∈ conns, c.targetInstanceId = id ∧ c.targetInboundName = n) := by
  induction conns generalizing acc with
  | nil => simp [groupConnectionsGo]
  | cons c rest ih =>
    unfold groupConnectionsGo
    rw [ih, insertInbound_mem]
    simp only [List.exists_mem_cons_iff]
    constructor
    · rintro ((h | ⟨h1, h2⟩) | h)
      · exact Or.inl h
      · exact Or.inr (Or.inl ⟨h1.symm, h2.symm⟩)
      · exact Or.inr (Or.inr h)
    · rintro (h | (⟨h1, h2⟩ | h))
      · exact Or.inl (Or.inl h)
      · exact Or.inl (Or.inr ⟨h1.symm, h2.symm⟩)
      · exact Or.inr h

/-- Helper: instance keys present after grouping are exactly the target
instances of the connections, starting from any accumulator. -/
theorem groupConnectionsGo_key (conns : List ConnectionRequest)
    (acc : List (String × List String)) (id : String) :
    (∃ ns, (id, ns) ∈ groupConnectionsGo acc conns) ↔
      ((∃ ns, (id, ns) ∈ acc) ∨ ∃ c ∈ conns, c.targetInstanceId = id) := by
  induction conns generalizing acc with
  | nil => simp [groupConnectionsGo]
  | cons c rest ih =>
    unfold groupConnectionsGo
    rw [ih, insertInbound_key]
    simp only [List.exists_mem_cons_iff]
    constructor
    · rintro ((h | h1) | h)
      · exact Or.inl h
      · exact Or.inr (Or.inl h1.symm)
      · exact Or.inr (Or.inr h)
    · rintro (h | (h1 | h))
      · exact Or.inl (Or.inl h)
      · exact Or.inl (Or.inr h1.symm)
      · exact Or.inr h

/-- Helper: pair membership in the grouped map. -/
theorem groupConnections_mem (conns : List ConnectionRequest) (id n : String) :
    (∃ ns, (id, ns) ∈ groupConnections conns ∧ n ∈ ns) ↔
      ∃ c ∈ conns, c.targetInstanceId = id ∧ c.targetInboundName = n := by
  unfold groupConnections
  rw [groupConnectionsGo_mem]
  simp

/-- Helper: key membership in the grouped map. -/
theorem groupConnections_key (conns : List ConnectionRequest) (id : String) :
    (∃ ns, (id, ns) ∈ groupConnections conns) ↔
      ∃ c ∈ conns, c.targetInstanceId = id := by
  unfold groupConnections
  rw [groupConnectionsGo_key]
  simp

/-- Helper: with the required-outbound pass passing, checkConnections accepts
exactly when every connection's target exists and declares the referenced
inbound. -/
theorem checkConnections_ok_iff (g : String → String → Option AppInstanceRec)
    (org : String) (conns : List ConnectionRequest)
    (outs : List OutboundNetworkInterface)
    (hro : checkRequiredOutbounds conns outs = none) :
    (checkConnections g org conns outs = none ↔ ∀ c ∈ conns, targetOk g org c) := by
  unfold checkConnections
  rw [hro]
  rw [firstFailure_none_iff, runChecks_eq_map, List.forall_mem_map]
  constructor
  · intro hall c hc
    rcases (groupConnections_mem conns c.targetInstanceId c.targetInboundName).mpr
        ⟨c, hc, rfl, rfl⟩ with ⟨ns, hmem, hn⟩
    rcases (checkInboundsExpected_true_iff g org c.targetInstanceId ns).mp
        (hall (c.targetInstanceId, ns) hmem) with ⟨inst, hg, hnames⟩
    exact ⟨inst, hg, hnames c.targetInboundName hn⟩
  · intro hall p hp
    obtain ⟨id, ns⟩ := p
    rw [checkInboundsExpected_true_iff]
    rcases (groupConnections_key conns id).mp ⟨ns, hp⟩ with ⟨c, hc, hcid⟩
    rcases hall c hc with ⟨inst, hg, hb⟩
    rw [hcid] at hg
    refine ⟨inst, hg, ?_⟩
    intro n hn
    rcases (groupConnections_mem conns id n).mp ⟨ns, hp, hn⟩ with ⟨c2, hc2, hc2id, hc2n⟩
    rcases hall c2 hc2 with ⟨inst2, hg2, hb2⟩
    rw [hc2id] at hg2
    rw [hg] at hg2
    injection hg2 with hg2
    rw [hg2, ← hc2n]
    exact hb2

/-- Helper: with the required-outbound pass passing, any reported error is a
failed precondition pointing at an offending connection; an empty referenced
inbound name is conflated with a failed lookup. -/
theorem checkConnections_some_char (g : String → String → Option AppInstanceRec)
    (org : String) (conns : List ConnectionRequest)
    (outs : List OutboundNetworkInterface) (e : DError)
    (hro : checkRequiredOutbounds conns outs = none)
    (h : checkConnections g org conns outs = some e) :
    e.kind = ErrKind.failedPrecondition ∧
    ∃ c ∈ conns, ¬ targetOk g org c ∧
      ((g org c.targetInstanceId = none ∧
          e = ⟨ErrKind.failedPrecondition, "instance not found", [c.targetInstanceId]⟩) ∨
       (c.targetInboundName = "" ∧ (∃ inst, g org c.targetInstanceId = some inst) ∧
          e = ⟨ErrKind.failedPrecondition, "instance not found", [c.targetInstanceId]⟩) ∨
       (c.targetInboundName ≠ "" ∧
          (∃ inst, g org c.targetInstanceId = some inst ∧
            inst.inboundNetInterfaces.any (fun i => i.name == c.targetInboundName) = false) ∧
          e = ⟨ErrKind.failedPrecondition, "no inbound interface found",
            [c.targetInstanceId, c.targetInboundName]⟩)) := by
  unfold checkConnections at h
  rw [hro, runChecks_eq_map] at h
  rcases firstFailure_some _ _ h with ⟨r, hr, hrfalse, hcase⟩
  rcases List.mem_map.mp hr with ⟨p, hp, hrp⟩
  obtain ⟨id, ns⟩ := p
  unfold checkInboundsExpected at hrp
  cases hg : g org id with
  | none =>
    rw [hg] at hrp
    dsimp only at hrp
    rcases (groupConnections_key conns id).mp ⟨ns, hp⟩ with ⟨c, hc, hcid⟩
    rcases hcase with ⟨hibne, _⟩ | ⟨_, he⟩
    · rw [← hrp] at hibne
      exact absurd rfl hibne
    · rw [← hrp] at he
      constructor
      · rw [he]
      · refine ⟨c, hc, ?_, Or.inl ⟨by rw [hcid]; exact hg, by rw [hcid]; exact he⟩⟩
        rintro ⟨inst, hginst, _⟩
        rw [hcid, hg] at hginst
        cases hginst
  | some inst =>
    rw [hg] at hrp
    dsimp only at hrp
    cases hf : ns.find? (fun n =>
        !(inst.inboundNetInterfaces.any (fun inbound => inbound.name == n))) with
    | none =>
      rw [hf] at hrp
      dsimp only at hrp
      rw [← hrp] at hrfalse
      cases hrfalse
    | some nm =>
      rw [hf] at hrp
      dsimp only at hrp
      have hanyf : inst.inboundNetInterfaces.any (fun inbound => inbound.name == nm) = false := by
        have hpred := List.find?_some hf
        cases hh : inst.inboundNetInterfaces.any (fun inbound => inbound.name == nm)
        · rfl
        · rw [hh] at hpred
          cases hpred
      have hmemn := List.mem_of_find?_eq_some hf
      rcases (groupConnections_mem conns id nm).mp ⟨ns, hp, hmemn⟩ with ⟨c, hc, hcid, hcn⟩
      have hnotok : ¬ targetOk g org c := by
        rintro ⟨inst2, hg2, hb2⟩
        rw [hcid, hg] at hg2
        injection hg2 with hg2
        rw [← hg2, hcn] at hb2
        rw [hb2] at hanyf
        cases hanyf
      rcases hcase with ⟨hibne, he⟩ | ⟨hib0, he⟩
      · rw [← hrp] at hibne he
        dsimp only at hibne he
        constructor
        · rw [he]
        · refine ⟨c, hc, hnotok, Or.inr (Or.inr ⟨by rw [hcn]; exact hibne,
            ⟨inst, by rw [hcid]; exact hg, by rw [hcn]; exact hanyf⟩,
            by rw [hcid, hcn]; exact he⟩)⟩
      · rw [← hrp] at hib0 he
        dsimp only at hib0 he
        constructor
        · rw [he]
        · exact ⟨c, hc, hnotok, Or.inr (Or.inl ⟨hcn.trans hib0,
            ⟨inst, by rw [hcid]; exact hg⟩, by rw [hcid]; exact he⟩)⟩

/-- C3, counterexample: with one requested connection that references an
empty-named inbound on instance `ti`, the lookup succeeds and the instance
lacks the inbound, yet checkConnections reports `instance not found` with only
the instance id — not the claimed error identifying the missing inbound name
of a found instance. -/
theorem checkConnections_counterexample :
    checkConnections lookupTI "org" [connEmptyInbound] [] =
      some ⟨ErrKind.failedPrecondition, "instance not found", ["ti"]⟩ ∧
    lookupTI "org" "ti" = some instTI ∧
    instTI.inboundNetInterfaces.any (fun i => i.name == "") = false :=
  ⟨rfl, rfl, rfl⟩

/-- C3 (amended): checkConnections first verifies, sequentially in descriptor
order, that every required outbound appears as SourceOutboundName in some
requested connection, failing with the first missing outbound's name as
parameter; with all required outbounds present it returns ok iff every target
instance exists and declares every inbound name referenced for it, and
otherwise returns a FailedPrecondition error identifying an offending
instance — with the missing inbound name included when the instance was found
and the name is non-empty; a missing empty-named inbound is reported as
`instance not found` because such a response is indistinguishable from a
failed lookup. -/
theorem checkConnections_amended (g : String → String → Option AppInstanceRec)
    (org : String) (conns : List ConnectionRequest)
    (outs : List OutboundNetworkInterface) :
    (∀ o, outs.find? (fun ob =>
        ob.required && !(conns.any (fun c => c.sourceOutboundName == ob.name))) = some o →
      checkConnections g org conns outs =
        some ⟨ErrKind.failedPrecondition, RequiredOutboundNotFilled, [o.name]⟩) ∧
    (checkRequiredOutbounds conns outs = none →
      (checkConnections g org conns outs = none ↔ ∀ c ∈ conns, targetOk g org c)) ∧
    (checkRequiredOutbounds conns outs = none →
      ∀ e, checkConnections g org conns outs = some e →
        e.kind = ErrKind.failedPrecondition ∧
        ∃ c ∈ conns, ¬ targetOk g org c ∧
          ((g org c.targetInstanceId = none ∧
              e = ⟨ErrKind.failedPrecondition, "instance not found", [c.targetInstanceId]⟩) ∨
           (c.targetInboundName = "" ∧ (∃ inst, g org c.targetInstanceId = some inst) ∧
              e = ⟨ErrKind.failedPrecondition, "instance not found", [c.targetInstanceId]⟩) ∨
           (c.targetInboundName ≠ "" ∧
              (∃ inst, g org c.targetInstanceId = some inst ∧
                inst.inboundNetInterfaces.any (fun i => i.name == c.targetInboundName) = false) ∧
              e = ⟨ErrKind.failedPrecondition, "no inbound interface found",
                [c.targetInstanceId, c.targetInboundName]⟩))) := by
  refine ⟨?_, ?_, ?_⟩
  · intro o ho
    unfold checkConnections
    rw [checkRequiredOutbounds_eq_find, ho]
  · intro hro
    exact checkConnections_ok_iff g org conns outs hro
  · intro hro e he
    exact checkConnections_some_char g org conns outs e hro he

/-- C3, witness: the amended characterization applied at a connection whose
target declares the referenced inbound. -/
theorem checkConnections_amended_witness :
    checkConnections lookupTI "org" [connGood] [] = none :=
  ((checkConnections_amended lookupTI "org" [connGood] []).2.1 rfl).mpr (by
    intro c hc
    rcases List.mem_singleton.mp hc with rfl
    exact ⟨instWithInbound, rfl, rfl⟩)

/-- Helper: mapping a pointwise-identity function is the identity. -/
theorem map_eq_self_of_id {α : Type} (f : α → α) (l : List α)
    (h : ∀ x, f x = x) : l.map f = l := by
  induction l with
  | nil => rfl
  | cons a t ih => simp [h, ih]

/-- Helper: copyService copies every Service field. -/
theorem copyService_eq (service : Service) : copyService service = service := by
  unfold copyService
  rw [map_eq_self_of_id copyStorage service.storage (fun x => rfl)]
  rw [map_eq_self_of_id copyExposedPort service.exposedPorts (fun x => by
    unfold copyExposedPort
    rw [map_eq_self_of_id copyEndPoint x.endpoints (fun y => rfl)])]
  rw [map_eq_self_of_id copyConfigFile service.configs (fun x => rfl)]
  have hc : copyImageCredential service.credentials = service.credentials := by
    cases service.credentials with
    | none => rfl
    | some c => rfl
  have hs : copyDeploySpec service.specs = service.specs := by
    cases service.specs with
    | none => rfl
    | some sp => rfl
  rw [hc, hs]

/-- Helper: copySecurityRule equals the source rule with its
TargetServiceGroupName and OutboundNetInterface fields dropped. -/
theorem copySecurityRule_eq_clear (rule : SecurityRule) :
    copySecurityRule rule =
      { rule with targetServiceGroupName := "", outboundNetInterface := "" } := rfl

/-- Helper: copyServiceGroup equals the source group with its Specs field
dropped. -/
theorem copyServiceGroup_eq_clear (group : ServiceGroup) :
    copyServiceGroup group = { group with specs := none } := by
  unfold copyServiceGroup
  rw [map_eq_self_of_id copyService group.services copyService_eq]

/-- C5, counterexample: a descriptor with one rule carrying a target service
group name and an outbound interface name, and one group carrying deployment
specs; the parametrized copy built with no instance parameters succeeds but
its rules and groups are not structurally equal to the originals (the copy
drops those fields). -/
theorem createParametrizedDescriptor_copy_counterexample :
    ∃ pd, CreateParametrizedDescriptor trivialPrims descriptorC5 none = Except.ok pd ∧
      pd.rules ≠ descriptorC5.rules ∧ pd.groups ≠ descriptorC5.groups := by
  refine ⟨newParametrizedDescriptorFromDescriptor descriptorC5, rfl, ?_, ?_⟩ <;> decide

/-- C5 (amended): with no instance parameters (nil or empty list),
CreateParametrizedDescriptor succeeds and returns a copy whose rules equal the
original rules except that each copied rule's target service group name and
outbound interface name are dropped to the zero value, whose groups equal the
original groups except that each copied group's deployment specs are dropped
to nil (services and all other group fields are copied field for field), and
whose scalar fields match the descriptor; the nested collections are rebuilt
element by element rather than shared (aliasing itself is unobservable in this
immutable model). -/
theorem createParametrizedDescriptor_no_params_amended (prims : GoPrims)
    (descriptor : AppDescriptor) (parameters : Option (List InstanceParameter))
    (h : parameters = none ∨ parameters = some []) :
    ∃ pd, CreateParametrizedDescriptor prims descriptor parameters = Except.ok pd ∧
      pd.rules = descriptor.rules.map
        (fun r => { r with targetServiceGroupName := "", outboundNetInterface := "" }) ∧
      pd.groups = descriptor.groups.map (fun g => { g with specs := none }) ∧
      pd.organizationId = descriptor.organizationId ∧
      pd.appDescriptorId = descriptor.appDescriptorId ∧
      pd.appInstanceId = "" ∧
      pd.name = descriptor.name ∧
      pd.configurationOptions = descriptor.configurationOptions ∧
      pd.environmentVariables = descriptor.environmentVariables ∧
      pd.labels = descriptor.labels := by
  refine ⟨newParametrizedDescriptorFromDescriptor descriptor, ?_, ?_, ?_,
    rfl, rfl, rfl, rfl, rfl, rfl, rfl⟩
  · rcases h with rfl | rfl
    · rfl
    · rfl
  · show descriptor.rules.map copySecurityRule = _
    exact congrArg descriptor.rules.map (funext copySecurityRule_eq_clear)
  · show descriptor.groups.map copyServiceGroup = _
    exact congrArg descriptor.groups.map (funext copyServiceGroup_eq_clear)

/-- C5, witness: the amended statement applied at the concrete fixture with
nil parameters. -/
theorem createParametrizedDescriptor_no_params_witness :
    ∃ pd, CreateParametrizedDescriptor trivialPrims descriptorC5 none = Except.ok pd ∧
      pd.rules = descriptorC5.rules.map
        (fun r => { r with targetServiceGroupName := "", outboundNetInterface := "" }) ∧
      pd.groups = descriptorC5.groups.map (fun g => { g with specs := none }) ∧
      pd.organizationId = descriptorC5.organizationId ∧
      pd.appDescriptorId = descriptorC5.appDescriptorId ∧
      pd.appInstanceId = "" ∧
      pd.name = descriptorC5.name ∧
      pd.configurationOptions = descriptorC5.configurationOptions ∧
      pd.environmentVariables = descriptorC5.environmentVariables ∧
      pd.labels = descriptorC5.labels :=
  createParametrizedDescriptor_no_params_amended trivialPrims descriptorC5 none (Or.inl rfl)

/-- Helper: one step of the parameter loop. -/
theorem applyParams_cons (prims : GoPrims) (descriptor : AppDescriptor)
    (doc : String) (p : InstanceParameter) (ps : List InstanceParameter) :
    applyParams prims descriptor doc (p :: ps) =
      match findParameterInDescriptor descriptor p with
      | Except.error e => Except.error e
      | Except.ok paramDefinition =>
        match validateInstanceParameter prims paramDefinition p with
        | Except.error e => Except.error e
        | Except.ok value =>
          match applyParameter prims doc paramDefinition value with
          | Except.error e => Except.error e
          | Except.ok newDoc => applyParams prims descriptor newDoc ps := by
  conv_lhs => unfold applyParams

/-- Helper: the parameter loop splits over list concatenation. -/
theorem applyParams_append (prims : GoPrims) (descriptor : AppDescriptor)
    (doc : String) (pre l : List InstanceParameter) :
    applyParams prims descriptor doc (pre ++ l) =
      match applyParams prims descriptor doc pre with
      | Except.ok doc2 => applyParams prims descriptor doc2 l
      | Except.error e => Except.error e := by
  induction pre generalizing doc with
  | nil => rfl
  | cons p rest ih =>
    rw [show (p :: rest) ++ l = p :: (rest ++ l) from rfl]
    rw [applyParams_cons prims descriptor doc p (rest ++ l)]
    rw [applyParams_cons prims descriptor doc p rest]
    cases hfind : findParameterInDescriptor descriptor p with
    | error e => rfl
    | ok paramDefinition =>
      dsimp only
      cases hval : validateInstanceParameter prims paramDefinition p with
      | error e => rfl
      | ok value =>
        dsimp only
        cases happ : applyParameter prims doc paramDefinition value with
        | error e => rfl
        | ok newDoc =>
          dsimp only
          rw [ih]

/-- Helper: evaluating CreateParametrizedDescriptor when the parameter loop
fails. -/
theorem createParametrizedDescriptor_error (prims : GoPrims)
    (descriptor : AppDescriptor) (ps : List InstanceParameter) (e : DError)
    (hne : ps ≠ [])
    (h : applyParams prims descriptor
        (prims.marshal (newParametrizedDescriptorFromDescriptor descriptor)) ps =
      Except.error e) :
    CreateParametrizedDescriptor prims descriptor (some ps) = Except.error e := by
  unfold CreateParametrizedDescriptor
  dsimp only
  rw [if_neg hne, h]

/-- C6, counterexample: a descriptor that declares no parameters at all; the
instance parameter `foo` matches no declared AppParameter, CreateParametrized-
Descriptor returns no descriptor, but the error is InvalidArgument (from the
empty-declaration branch of findParameterInDescriptor), not the claimed
NotFound. -/
theorem createParametrizedDescriptor_unknown_param_counterexample :
    CreateParametrizedDescriptor trivialPrims emptyDescriptor (some [⟨"foo", "x"⟩]) =
      Except.error ⟨ErrKind.invalidArgument,
        "Instance parameter not found. Descriptor has no parameters", []⟩ ∧
    ErrKind.invalidArgument ≠ ErrKind.notFound :=
  ⟨rfl, by decide⟩

/-- C6 (amended): when the first failing instance parameter (here: the head of
the remaining list, after a prefix that patched successfully) has a name
matching no declared AppParameter, CreateParametrizedDescriptor fails and
returns no descriptor; the error is NotFound when the descriptor declares at
least one parameter, and InvalidArgument when it declares none. -/
theorem createParametrizedDescriptor_unknown_param_amended (prims : GoPrims)
    (descriptor : AppDescriptor) (pre : List InstanceParameter)
    (p : InstanceParameter) (rest : List InstanceParameter) (doc : String)
    (hpre : applyParams prims descriptor
        (prims.marshal (newParametrizedDescriptorFromDescriptor descriptor)) pre =
      Except.ok doc)
    (hunk : ∀ q ∈ descriptor.parameters, q.name ≠ p.parameterName) :
    ∃ e, CreateParametrizedDescriptor prims descriptor (some (pre ++ p :: rest)) =
        Except.error e ∧
      e.kind = (if descriptor.parameters = [] then ErrKind.invalidArgument
        else ErrKind.notFound) := by
  have hfind : ∃ e2, findParameterInDescriptor descriptor p = Except.error e2 ∧
      e2.kind = (if descriptor.parameters = [] then ErrKind.invalidArgument
        else ErrKind.notFound) := by
    unfold findParameterInDescriptor
    by_cases hd : descriptor.parameters = []
    · rw [if_pos hd, if_pos hd]
      exact ⟨_, rfl, rfl⟩
    · rw [if_neg hd, if_neg hd]
      have hnone : descriptor.parameters.find?
          (fun param => param.name == p.parameterName) = none := by
        rw [List.find?_eq_none]
        intro a ha
        simpa using hunk a ha
      rw [hnone]
      exact ⟨_, rfl, rfl⟩
  rcases hfind with ⟨e2, he2, hkind⟩
  refine ⟨e2, ?_, hkind⟩
  have hne : pre ++ p :: rest ≠ [] := by simp
  refine createParametrizedDescriptor_error prims descriptor _ e2 hne ?_
  rw [applyParams_append, hpre]
  dsimp only
  rw [applyParams_cons, he2]

/-- C6, witness: the amended statement applied at a descriptor declaring one
parameter and a request whose only (hence first-failing) instance parameter is
undeclared. -/
theorem createParametrizedDescriptor_unknown_param_witness :
    ∃ e, CreateParametrizedDescriptor trivialPrims descriptorC6 (some ([] ++ ⟨"foo", "x"⟩ :: [])) =
        Except.error e ∧
      e.kind = (if descriptorC6.parameters = [] then ErrKind.invalidArgument
        else ErrKind.notFound) :=
  createParametrizedDescriptor_unknown_param_amended trivialPrims descriptorC6 []
    ⟨"foo", "x"⟩ [] "" rfl (by decide)

/-- C7: an enum-typed parameter whose value is outside the declared enum set
makes CreateParametrizedDescriptor fail with the InvalidArgument error built
by validateInstanceParameter, returning no descriptor, provided the
parameters before it in the list patched successfully (the loop aborts at the
first failure). -/
theorem createParametrizedDescriptor_enum_invalid (prims : GoPrims)
    (descriptor : AppDescriptor) (pre : List InstanceParameter)
    (p : InstanceParameter) (rest : List InstanceParameter) (doc : String)
    (paramDefinition : AppParameter)
    (hpre : applyParams prims descriptor
        (prims.marshal (newParametrizedDescriptorFromDescriptor descriptor)) pre =
      Except.ok doc)
    (hfind : findParameterInDescriptor descriptor p = Except.ok paramDefinition)
    (htype : paramDefinition.type = ParamDataType.enum)
    (hval : paramDefinition.enumValues.any (fun v => v == p.value) = false) :
    CreateParametrizedDescriptor prims descriptor (some (pre ++ p :: rest)) =
      Except.error ⟨ErrKind.invalidArgument, "Invalid parameter value",
        ["parameter", p.parameterName, "value", p.value]⟩ := by
  have hvalerr : validateInstanceParameter prims paramDefinition p =
      Except.error ⟨ErrKind.invalidArgument, "Invalid parameter value",
        ["parameter", p.parameterName, "value", p.value]⟩ := by
    unfold validateInstanceParameter
    rw [htype]
    rw [if_neg (by rw [hval]; exact Bool.false_ne_true)]
  have hne : pre ++ p :: rest ≠ [] := by simp
  refine createParametrizedDescriptor_error prims descriptor _ _ hne ?_
  rw [applyParams_append, hpre]
  dsimp only
  rw [applyParams_cons, hfind]
  dsimp only
  rw [hvalerr]

/-- C7, witness: the concrete enum fixture `color ∈ {red, green}` with value
`blue`, as the first instance parameter. -/
theorem createParametrizedDescriptor_enum_invalid_witness :
    CreateParametrizedDescriptor trivialPrims descriptorC7 (some ([] ++ ⟨"color", "blue"⟩ :: [])) =
      Except.error ⟨ErrKind.invalidArgument, "Invalid parameter value",
        ["parameter", "color", "value", "blue"]⟩ :=
  createParametrizedDescriptor_enum_invalid trivialPrims descriptorC7 []
    ⟨"color", "blue"⟩ [] "" enumParamDef rfl rfl rfl rfl

/-- C1: when persisting the parametrized descriptor fails after the instance
was created, Deploy issues RemoveAppInstance for the just-created instance as
its final call and returns the original AddParametrizedDescriptor error.  The
outcome of env.removeAppInstance is unconstrained, so the same conclusion
holds when the compensating delete itself fails — the failed compensation
never replaces the returned error. -/
theorem deploy_rollback_on_persist_failure (env : DeployEnv)
    (deployRequest : DeployRequest) (desc : AppDescriptor)
    (parametrizedDesc : ParametrizedDescriptor) (instance1 : AppInstanceRec)
    (e : GoErr)
    (h1 : env.getAppDescriptor = Except.ok desc)
    (h2 : checkAllRequiredParametersAreFilled desc deployRequest.parameters = none)
    (h3 : checkConnections env.getAppInstance deployRequest.organizationId
        deployRequest.outboundConnections desc.outboundNetInterfaces = none)
    (h4 : CreateParametrizedDescriptor env.prims desc deployRequest.parameters =
        Except.ok parametrizedDesc)
    (h5 : env.addAppInstance = Except.ok instance1)
    (h6 : env.addParametrizedDescriptor
        { parametrizedDesc with appInstanceId := instance1.appInstanceId } =
      Except.error e) :
    Deploy env deployRequest =
      (Except.error (ManagerError.grpc e),
        [DeployCall.getAppDescriptorCall, DeployCall.addAppInstanceCall,
         DeployCall.addParametrizedDescriptorCall
           { parametrizedDesc with appInstanceId := instance1.appInstanceId },
         DeployCall.removeAppInstanceCall deployRequest.organizationId
           instance1.appInstanceId]) := by
  unfold Deploy
  rw [h1]
  dsimp only
  rw [h2]
  dsimp only
  rw [h3]
  dsimp only
  rw [h4]
  dsimp only
  rw [h5]
  dsimp only
  rw [h6]

/-- C1, witness: a concrete environment in which the persist fails and the
compensating delete also fails; Deploy still answers with the persist
error after calling RemoveAppInstance. -/
theorem deploy_rollback_witness :
    Deploy envC1 reqD =
      (Except.error (ManagerError.grpc "persist failed"),
        [DeployCall.getAppDescriptorCall, DeployCall.addAppInstanceCall,
         DeployCall.addParametrizedDescriptorCall
           { newParametrizedDescriptorFromDescriptor emptyDescriptor with
             appInstanceId := "inst-1" },
         DeployCall.removeAppInstanceCall "org" "inst-1"]) :=
  deploy_rollback_on_persist_failure envC1 reqD emptyDescriptor
    (newParametrizedDescriptorFromDescriptor emptyDescriptor) instD "persist failed"
    rfl rfl rfl rfl rfl rfl

/-- C2: with inbound connections present and no user confirmation, Undeploy
fails with the failed-precondition guard and issues no connection removal and
no enqueue; with confirmation (or no inbound connections) it issues a
RemoveConnection call for every inbound and every outbound connection before
the single teardown enqueue, whose outcome is the only hard failure; and the
whole workflow is independent of the removal outcomes. -/
theorem undeploy_guard_and_removals (env : UndeployEnv)
    (undeployRequest : UndeployRequest) (instance1 : ExpandedAppInstance)
    (h : GetAppInstanceM env = Except.ok instance1) :
    (instance1.inboundConnections ≠ [] → undeployRequest.userConfirmation = false →
      Undeploy env undeployRequest =
        (Except.error (ManagerError.derror ⟨ErrKind.failedPrecondition,
          "can not undeploy the instance, it has inbound connections. User confirmation required",
          []⟩), [])) ∧
    ((undeployRequest.userConfirmation = true ∨ instance1.inboundConnections = []) →
      Undeploy env undeployRequest =
        ((match env.sendUndeploy ⟨undeployRequest.organizationId, undeployRequest.appInstanceId⟩ with
          | Except.error e => Except.error (ManagerError.grpc e)
          | Except.ok _ => Except.ok Success.mk),
         (instance1.inboundConnections ++ instance1.outboundConnections).map
            (fun conn => UndeployCall.removeConnectionCall (mkRemoveConnectionRequest conn)) ++
          [UndeployCall.sendUndeployCall
            ⟨undeployRequest.organizationId, undeployRequest.appInstanceId⟩])) ∧
    (∀ f, Undeploy { env with removeConnection := f } undeployRequest =
      Undeploy env undeployRequest) := by
  refine ⟨?_, ?_, ?_⟩
  · intro hin hconf
    unfold Undeploy
    rw [h]
    dsimp only
    rw [if_pos ⟨List.length_pos.mpr hin, hconf⟩]
  · intro hcase
    unfold Undeploy
    rw [h]
    dsimp only
    rw [if_neg ?_]
    · cases hsend : env.sendUndeploy
          ⟨undeployRequest.organizationId, undeployRequest.appInstanceId⟩ with
      | error e => rfl
      | ok u => rfl
    · rintro ⟨hlen, hconf⟩
      rcases hcase with hc | hc
      · rw [hc] at hconf
        cases hconf
      · rw [hc] at hlen
        exact absurd hlen (by simp)
  · intro f
    rfl

/-- C2, witness: a concrete confirmed undeploy with one inbound and one
outbound connection and failing removals; both removals are issued, the
teardown is enqueued and the call succeeds. -/
theorem undeploy_witness :
    Undeploy envC2 reqU =
      (Except.ok Success.mk,
        [UndeployCall.removeConnectionCall (mkRemoveConnectionRequest connIn),
         UndeployCall.removeConnectionCall (mkRemoveConnectionRequest connOut),
         UndeployCall.sendUndeployCall ⟨"org", "inst-1"⟩]) :=
  (undeploy_guard_and_removals envC2 reqU ⟨instD, [connIn], [connOut]⟩ rfl).2.1
    (Or.inl rfl)

/-- C9: RemoveAppDescriptor fails with the failed-precondition guard, without
forwarding the removal to the store, whenever some listed instance of the
organization references the descriptor id; with no referencing instance the
removal is forwarded and the store outcome returned. -/
theorem removeAppDescriptor_guard (env : RemoveDescriptorEnv)
    (appDescriptorID : AppDescriptorId) (instances : List AppInstanceRec)
    (h : env.listAppInstances = Except.ok instances) :
    ((∃ inst ∈ instances, inst.appDescriptorId = appDescriptorID.appDescriptorId) →
      RemoveAppDescriptor env appDescriptorID =
        (Except.error (ManagerError.derror ⟨ErrKind.failedPrecondition,
          "application instances must be removed before deleting the descriptor", []⟩),
         [RemoveDescriptorCall.listAppInstancesCall])) ∧
    ((∀ inst ∈ instances, inst.appDescriptorId ≠ appDescriptorID.appDescriptorId) →
      RemoveAppDescriptor env appDescriptorID =
        ((match env.removeAppDescriptor with
          | Except.error e => Except.error (ManagerError.grpc e)
          | Except.ok s => Except.ok s),
         [RemoveDescriptorCall.listAppInstancesCall,
          RemoveDescriptorCall.removeAppDescriptorCall])) := by
  constructor
  · rintro ⟨inst, hmem, hid⟩
    unfold RemoveAppDescriptor
    rw [h]
    dsimp only
    rw [if_pos (List.any_eq_true.mpr ⟨inst, hmem, by simpa using hid⟩)]
  · intro hall
    unfold RemoveAppDescriptor
    rw [h]
    dsimp only
    rw [if_neg ?_]
    · cases env.removeAppDescriptor with
      | error e => rfl
      | ok s => rfl
    · intro hany
      rcases List.any_eq_true.mp hany with ⟨inst, hmem, hid⟩
      exact hall inst hmem (by simpa using hid)

/-- C9, witness: a concrete organization with one instance referencing the
descriptor; the removal is refused without touching the store. -/
theorem removeAppDescriptor_guard_witness :
    RemoveAppDescriptor envC9 ⟨"org", "desc-9"⟩ =
      (Except.error (ManagerError.derror ⟨ErrKind.failedPrecondition,
        "application instances must be removed before deleting the descriptor", []⟩),
       [RemoveDescriptorCall.listAppInstancesCall]) :=
  (removeAppDescriptor_guard envC9 ⟨"org", "desc-9"⟩ [instD9] rfl).1
    ⟨instD9, List.mem_singleton.mpr rfl, rfl⟩

/-- Helper: the rule scan computes the target service name of the last
matching rule (or the empty string when none matches). -/
theorem resolveSourceName_eq_lastMatchTarget (rules : List SecurityRule)
    (sourceOutboundName : String) :
    resolveSourceName rules sourceOutboundName =
      lastMatchTarget rules sourceOutboundName := by
  induction rules using List.reverseRecOn with
  | nil => rfl
  | append_singleton rs rule ih =>
    unfold resolveSourceName at ih
    unfold resolveSourceName
    rw [List.foldl_append]
    unfold lastMatchTarget at ih
    unfold lastMatchTarget
    rw [List.filter_append]
    by_cases hm : (rule.outboundNetInterface == sourceOutboundName) = true
    · have hf1 : List.filter (fun r => r.outboundNetInterface == sourceOutboundName) [rule] =
          [rule] := by
        simp [List.filter, hm]
      rw [hf1, List.getLast?_concat]
      dsimp only [List.foldl]
      rw [if_pos hm]
    · have hf1 : List.filter (fun r => r.outboundNetInterface == sourceOutboundName) [rule] =
          [] := by
        simp [List.filter, hm]
      rw [hf1, List.append_nil]
      dsimp only [List.foldl]
      rw [if_neg hm]
      exact ih

/-- C8, counterexample: a deploy whose single requested connection matches no
rule of the created instance succeeds, but the request handed to the
scheduler still carries one entry for it — a nil placeholder — so the
connection is not excluded from the resolved connection list. -/
theorem deploy_unmatched_connection_counterexample :
    Deploy envC8 reqC8 =
      (Except.ok ⟨"app-mngr-2", "inst-8", ApplicationStatus.queued⟩,
        [DeployCall.getAppDescriptorCall, DeployCall.addAppInstanceCall,
         DeployCall.addParametrizedDescriptorCall
           { newParametrizedDescriptorFromDescriptor emptyDescriptor with
             appInstanceId := "inst-8" },
         DeployCall.sendDeployCall
           ⟨"app-mngr-1", "org", "inst-8", "app", [none]⟩]) ∧
    [(none : Option ConnectionInstance)] ≠ [] :=
  ⟨rfl, by decide⟩

/-- Helper: a sendDeploy entry in a trace whose prefix contains no sendDeploy
call pins down the enqueued request. -/
theorem sendDeploy_mem_append (r q : ConductorDeploymentRequest) (L : List DeployCall)
    (hL : ∀ q2, DeployCall.sendDeployCall q2 ∉ L)
    (hmem : DeployCall.sendDeployCall r ∈ L ++ [DeployCall.sendDeployCall q]) :
    r = q := by
  rcases List.mem_append.mp hmem with h | h
  · exact absurd h (hL r)
  · exact DeployCall.sendDeployCall.inj (List.mem_singleton.mp h)

/-- C8 (amended): the resolved list keeps one slot per requested connection; a
request whose outbound name has no matching rule with a non-empty target
service name yields a nil entry at its index (deploy does not fail), and one
whose last matching rule has a non-empty target service name yields an entry
with that name as source instance name; every deployment request Deploy hands
to the scheduler carries exactly the list resolved this way against the
created instance's rules. -/
theorem deploy_connection_resolution_amended (org : String)
    (rules : List SecurityRule) (requests : List ConnectionRequest) (i : Nat)
    (c : ConnectionRequest) (env : DeployEnv) (deployRequest : DeployRequest)
    (r : ConductorDeploymentRequest) :
    ((resolveConnections org rules requests).length = requests.length) ∧
    (requests[i]? = some c →
      (resolveConnections org rules requests)[i]? =
        some (if lastMatchTarget rules c.sourceOutboundName = "" then none
          else some
            { organizationId := org
              sourceInstanceId := ""
              sourceInstanceName := lastMatchTarget rules c.sourceOutboundName
              targetInstanceId := c.targetInstanceId
              inboundName := c.targetInboundName
              outboundName := c.sourceOutboundName })) ∧
    (DeployCall.sendDeployCall r ∈ (Deploy env deployRequest).2 →
      ∃ desc instance1, env.getAppDescriptor = Except.ok desc ∧
        env.addAppInstance = Except.ok instance1 ∧
        r.outboundConnections = resolveConnections desc.organizationId
          instance1.rules deployRequest.outboundConnections) := by
  refine ⟨List.length_map _ _, ?_, ?_⟩
  · intro hc
    unfold resolveConnections
    rw [List.getElem?_map, hc]
    dsimp only [Option.map]
    rw [resolveSourceName_eq_lastMatchTarget]
    by_cases hm : lastMatchTarget rules c.sourceOutboundName = ""
    · rw [if_pos hm, if_pos (by simpa using hm)]
    · rw [if_neg hm, if_neg (by simpa using hm)]
  · intro hmem
    unfold Deploy at hmem
    cases hdesc : env.getAppDescriptor with
    | error e =>
      rw [hdesc] at hmem
      dsimp only at hmem
      exact absurd hmem (by simp)
    | ok desc =>
      rw [hdesc] at hmem
      dsimp only at hmem
      cases hp : checkAllRequiredParametersAreFilled desc deployRequest.parameters with
      | some e =>
        rw [hp] at hmem
        dsimp only at hmem
        exact absurd hmem (by simp)
      | none =>
        rw [hp] at hmem
        dsimp only at hmem
        cases hcc : checkConnections env.getAppInstance deployRequest.organizationId
            deployRequest.outboundConnections desc.outboundNetInterfaces with
        | some e =>
          rw [hcc] at hmem
          dsimp only at hmem
          exact absurd hmem (by simp)
        | none =>
          rw [hcc] at hmem
          dsimp only at hmem
          cases hcp : CreateParametrizedDescriptor env.prims desc deployRequest.parameters with
          | error e =>
            rw [hcp] at hmem
            dsimp only at hmem
            exact absurd hmem (by simp)
          | ok parametrizedDesc =>
            rw [hcp] at hmem
            dsimp only at hmem
            cases hadd : env.addAppInstance with
            | error e =>
              rw [hadd] at hmem
              dsimp only at hmem
              exact absurd hmem (by simp)
            | ok instance1 =>
              rw [hadd] at hmem
              dsimp only at hmem
              refine ⟨desc, instance1, rfl, rfl, ?_⟩
              cases hpd : env.addParametrizedDescriptor
                  { parametrizedDesc with appInstanceId := instance1.appInstanceId } with
              | error e =>
                rw [hpd] at hmem
                dsimp only at hmem
                exact absurd hmem (by simp)
              | ok newDesc =>
                rw [hpd] at hmem
                dsimp only at hmem
                by_cases hrules :
                    0 < ({ parametrizedDesc with
                      appInstanceId := instance1.appInstanceId } :
                        ParametrizedDescriptor).rules.length
                · rw [if_pos hrules] at hmem
                  cases hupd : env.updateAppInstance { instance1 with
                      rules := newDesc.rules
                      configurationOptions := newDesc.configurationOptions
                      environmentVariables := newDesc.environmentVariables
                      labels := newDesc.labels } with
                  | error e =>
                    rw [hupd] at hmem
                    dsimp only at hmem
                    exact absurd hmem (by simp)
                  | ok s =>
                    rw [hupd] at hmem
                    dsimp only at hmem
                    unfold deployEnqueue at hmem
                    dsimp only at hmem
                    have hpin : r = ⟨"app-mngr-" ++ toString env.rand1,
                        deployRequest.organizationId, instance1.appInstanceId,
                        deployRequest.name,
                        resolveConnections desc.organizationId instance1.rules
                          deployRequest.outboundConnections⟩ := by
                      cases hsend : env.sendDeploy
                          { requestId := "app-mngr-" ++ toString env.rand1
                            organizationId := deployRequest.organizationId
                            appInstanceId := instance1.appInstanceId
                            name := deployRequest.name
                            outboundConnections := resolveConnections desc.organizationId
                              instance1.rules deployRequest.outboundConnections } with
                      | error e =>
                        rw [hsend] at hmem
                        dsimp only at hmem
                        exact sendDeploy_mem_append r _ _ (by intro q2; simp) hmem
                      | ok u =>
                        rw [hsend] at hmem
                        dsimp only at hmem
                        exact sendDeploy_mem_append r _ _ (by intro q2; simp) hmem
                    rw [hpin]
                · rw [if_neg hrules] at hmem
                  unfold deployEnqueue at hmem
                  dsimp only at hmem
                  have hpin : r = ⟨"app-mngr-" ++ toString env.rand1,
                      deployRequest.organizationId, instance1.appInstanceId,
                      deployRequest.name,
                      resolveConnections desc.organizationId instance1.rules
                        deployRequest.outboundConnections⟩ := by
                    cases hsend : env.sendDeploy
                        { requestId := "app-mngr-" ++ toString env.rand1
                          organizationId := deployRequest.organizationId
                          appInstanceId := instance1.appInstanceId
                          name := deployRequest.name
                          outboundConnections := resolveConnections desc.organizationId
                            instance1.rules deployRequest.outboundConnections } with
                    | error e =>
                      rw [hsend] at hmem
                      dsimp only at hmem
                      exact sendDeploy_mem_append r _ _ (by intro q2; simp) hmem
                    | ok u =>
                      rw [hsend] at hmem
                      dsimp only at hmem
                      exact sendDeploy_mem_append r _ _ (by intro q2; simp) hmem
                  rw [hpin]

/-- C8, witness: the amended characterization at a concrete rule set with one
matching rule carrying a non-empty target service name. -/
theorem deploy_connection_resolution_witness :
    (resolveConnections "org" [ruleFull] [⟨"ob1", "tj", "in1"⟩]).length = 1 ∧
    (resolveConnections "org" [ruleFull] [⟨"ob1", "tj", "in1"⟩])[0]? =
      some (some
        { organizationId := "org"
          sourceInstanceId := ""
          sourceInstanceName := "service1"
          targetInstanceId := "tj"
          inboundName := "in1"
          outboundName := "ob1" }) := by
  have h := deploy_connection_resolution_amended "org" [ruleFull]
    [⟨"ob1", "tj", "in1"⟩] 0 ⟨"ob1", "tj", "in1"⟩ envC8 reqC8
    ⟨"", "", "", "", []⟩
  refine ⟨h.1, ?_⟩
  have h2 := h.2.1 rfl
  rw [h2]
  rfl
